import Mathlib

/-!
Verification development for the TreehornX front end.

The repository lowers a restricted C subset into a strongly-typed IR.
This file gives a shallow embedding of the parts of the code that the
checked properties are about:

- the sort (type) system `ir/_internal/sorts` (deep values; the global
  interning pool is modelled separately as an explicit registry),
- the expression algebra `ir/expressions.py` (validating constructors
  returning `Except`),
- the instruction and function model `ir/instructions.py`,
  `ir/function.py`, `ir/enviroment.py`,
- the lowering pipeline `parser/_internal/cparser` (scope stack,
  expression visitor, statement visitor, function assembly).

Python exceptions are modelled by the `PyErr` error type; a constructor
or visitor that can raise returns `Except PyErr _`.  Machine-level
details that the properties do not touch (source line numbers carried by
lowering errors, float literals) are elided; where an elision matters it
is called out in a comment next to the definition.
-/

namespace TreehornX

/-- Error kinds raised by the embedded code.  `valueError`, `keyError`,
`attributeError`, `runtimeError`, `assertionError` and `nameError` model
the Python builtins; `incompatibleReturnType` models
`ir.errors.IncompatibleReturnTypeError`; the remaining kinds model the
classified lowering errors of `parser/_internal/cparser/errors.py`
(their source line argument is elided). -/
inductive PyErr where
  | valueError (msg : String)
  | keyError (msg : String)
  | attributeError (msg : String)
  | runtimeError (msg : String)
  | assertionError (msg : String)
  | nameError (msg : String)
  | typeError (msg : String)
  | incompatibleReturnType (msg : String)
  | unsupportedFeature (msg : String)
  | unknownType (msg : String)
  | duplicateDefinition (msg : String)
  | undefinedSymbol (msg : String)
deriving DecidableEq, Repr

/-- True exactly on the `IncompatibleReturnTypeError` kind. -/
def PyErr.isIncompatibleReturnType : PyErr → Bool
  | .incompatibleReturnType _ => true
  | _ => false

/- Sorts of the IR type system (`ir/_internal/sorts`).  The Python
classes `Int`, `Real`, `Unit`, `Enum`, `Struct`, `Pointer` are interned:
structurally equal construction payloads yield the same instance, so a
sort value here corresponds to one canonical Python instance, and Lean
structural equality corresponds to Python referential identity (`is`).
`struct` carries the constructor payload of `Struct.__init__`: the
self-pointer field names (`struct_ptrs`) and the data fields
(`struct_vars`, as name/sort pairs); the `fields` mapping that also
contains the synthesized self-pointer fields is computed by
`SortT.fieldLookup` below, mirroring the `Struct.fields` cached
property. -/
mutual

/-- Sorts of the IR type system; see the module comment on interning. -/
inductive SortT where
  | intS
  | realS
  | unitS
  | enumS (name : String) (flags : List (String × Int))
  | structS (name : String) (structPtrs : List String) (structVars : FieldSorts)
  | ptrS (pointee : SortT)
deriving DecidableEq, Repr

/-- The data-field list of a struct payload (`struct_vars` in
`Struct.__init__`, a collection of `Var`s, i.e. name/sort pairs).  A
separate list type so that decidable equality can be derived for the
mutually recursive sort values. -/
inductive FieldSorts where
  | nil
  | cons (fname : String) (fsort : SortT) (rest : FieldSorts)
deriving DecidableEq, Repr

end

/-- Lookup of a data field by name in a struct payload. -/
def FieldSorts.lookup : FieldSorts → String → Option SortT
  | .nil, _ => none
  | .cons fname fsort rest, f => if fname = f then some fsort else rest.lookup f

/-- `Sort.is_ptr` (overridden by `Pointer`). -/
def SortT.isPtr : SortT → Bool
  | .ptrS _ => true
  | _ => false

/-- `Sort.is_struct` (overridden by `Struct`). -/
def SortT.isStruct : SortT → Bool
  | .structS _ _ _ => true
  | _ => false

/-- `Sort.is_unit` (overridden by `Unit`). -/
def SortT.isUnit : SortT → Bool
  | .unitS => true
  | _ => false

/-- `Sort.is_enum` (overridden by `Enum`). -/
def SortT.isEnum : SortT → Bool
  | .enumS _ _ => true
  | _ => false

/-- `ir.utils.is_arithmetic_expression` tests membership in the classes
`Int` and `Real`; this is the corresponding test on sorts. -/
def SortT.isArith : SortT → Bool
  | .intS => true
  | .realS => true
  | _ => false

/-- The native sort `INT`. -/
def INT : SortT := .intS

/-- The native sort `REAL`. -/
def REAL : SortT := .realS

/-- The native sort `UNIT`. -/
def UNIT : SortT := .unitS

/-- `BOOL = Enum("bool", dict FALSE 0, TRUE 1)` from
`ir/_internal/sorts/Enum.py`. -/
def BOOL : SortT := .enumS "bool" [("FALSE", 0), ("TRUE", 1)]

/-- `Struct.fields` membership and lookup: the data fields
(`_struct_vars`) together with, for each self-pointer field name, a
synthesized field of sort `Pointer(self)`.  In the source the dict is
built by inserting the pointer fields first and then `update`-ing with
the data fields, so a data field of the same name would win; the
constructor enforces disjointness, and the lookup below uses the same
precedence.  Returns `none` when the sort is not a struct or the field
is absent (a `KeyError`, or `AttributeError` on a non-struct, in
Python). -/
def SortT.fieldLookup : SortT → String → Option SortT
  | .structS n ps vs, f =>
      match vs.lookup f with
      | some σ => some σ
      | none => if f ∈ ps then some (.ptrS (.structS n ps vs)) else none
  | _, _ => none

/-- Membership in `Struct.fields` (used by `Field.__post_init__` and by
`Function._validate_expression`). -/
def SortT.hasField (s : SortT) (f : String) : Bool :=
  (s.fieldLookup f).isSome

/-- `ir.expressions.Var`: a named variable with a sort.  Instances are
compared field-wise (frozen dataclass equality). -/
structure Var where
  name : String
  sort : SortT
deriving DecidableEq, Repr

/-- `Var.__post_init__`: a Var of `Unit` sort is rejected. -/
def mkVar (name : String) (sort : SortT) : Except PyErr Var :=
  if sort.isUnit then .error (.valueError "self.sort.is_unit()")
  else .ok ⟨name, sort⟩

/-- `ir.expressions.Field`: the projection `ptr.name` of a field from a
pointer-to-struct variable. -/
structure FieldE where
  ptr : Var
  name : String
deriving DecidableEq, Repr

/-- `Field.__post_init__`: `ptr` must be pointer-sorted, its pointee a
struct, and `name` one of that struct declared fields. -/
def mkField (ptr : Var) (name : String) : Except PyErr FieldE :=
  match ptr.sort with
  | .ptrS pointee =>
      if ¬ pointee.isStruct then .error (.valueError "not self.ptr.sort.is_struct()")
      else if (pointee.fieldLookup name).isNone then
        .error (.valueError "self.name not in self.ptr.sort.fields")
      else .ok ⟨ptr, name⟩
  | _ => .error (.valueError "not self.ptr.is_ptr()")

/-- The four associative operator classes of `ir/expressions.py`
(`And`, `Or`, `Add`, `Mul`).  They share the `_AssociativeOperator`
implementation and differ only in their validators, so the embedding
indexes one node kind by this tag. -/
inductive AssocKind where
  | andK
  | orK
  | addK
  | mulK
deriving DecidableEq, Repr

/-- Expression trees of `ir/expressions.py` (the `Expr` type alias).
`intLit` models Python `int` literals; float literals are elided (no
checked property mentions them).  `enumLit` models `EnumConst` (whose
interning again makes structural equality coincide with identity).  The
operator constructors of the source validate at construction time; the
validating builders are the `mk…` functions below, while this inductive
is the raw value space. -/
inductive Expr where
  | evar (v : Var)
  | efld (f : FieldE)
  | intLit (n : Int)
  | enumLit (sort : SortT) (value : String)
  | isNilE (argument : Expr)
  | isPtrE (left right : Expr)
  | notE (argument : Expr)
  | eqE (left right : Expr)
  | neE (left right : Expr)
  | ltE (left right : Expr)
  | leE (left right : Expr)
  | gtE (left right : Expr)
  | geE (left right : Expr)
  | subE (left right : Expr)
  | divE (left right : Expr)
  | modE (left right : Expr)
  | negE (argument : Expr)
  | assocE (k : AssocKind) (arg1 : Expr) (rest : List Expr)

/-- The `TRUE` enum constant. -/
def TRUE : Expr := .enumLit BOOL "TRUE"

/-- The `FALSE` enum constant. -/
def FALSE : Expr := .enumLit BOOL "FALSE"

/-- Is the expression a `Var` instance (`isinstance(e, Var)`)? -/
def Expr.isVarE : Expr → Bool
  | .evar _ => true
  | _ => false

/-- `ir.expressions.sort_of`.  On a `Field` the source evaluates
`sort.pointee.fields[name].sort`; for the malformed case where that
lookup would raise (never reachable from a validated `Field`) the
embedding returns `UNIT`. -/
def sortOf : Expr → SortT
  | .evar v => v.sort
  | .efld f =>
      match f.ptr.sort with
      | .ptrS pointee => (pointee.fieldLookup f.name).getD UNIT
      | _ => UNIT
  | .enumLit s _ => s
  | .intLit _ => INT
  | .isNilE _ => BOOL
  | .isPtrE _ _ => BOOL
  | .notE _ => BOOL
  | .eqE _ _ => BOOL
  | .neE _ _ => BOOL
  | .ltE _ _ => BOOL
  | .leE _ _ => BOOL
  | .gtE _ _ => BOOL
  | .geE _ _ => BOOL
  | .subE l _ => sortOf l
  | .divE l _ => sortOf l
  | .modE l _ => sortOf l
  | .negE a => sortOf a
  | .assocE .andK _ _ => BOOL
  | .assocE .orK _ _ => BOOL
  | .assocE .addK a _ => sortOf a
  | .assocE .mulK a _ => sortOf a

mutual

/-- The per-argument check of the `_no_fields` validator
(`ir/expressions.py`): an argument that is a `Field` fails; an argument
that is an `Operator` is checked recursively on its own arguments; any
other argument passes.  `true` means the argument is acceptable. -/
def fieldFree : Expr → Bool
  | .efld _ => false
  | .evar _ => true
  | .intLit _ => true
  | .enumLit _ _ => true
  | .isNilE a => fieldFree a
  | .notE a => fieldFree a
  | .negE a => fieldFree a
  | .isPtrE l r => fieldFree l && fieldFree r
  | .eqE l r => fieldFree l && fieldFree r
  | .neE l r => fieldFree l && fieldFree r
  | .ltE l r => fieldFree l && fieldFree r
  | .leE l r => fieldFree l && fieldFree r
  | .gtE l r => fieldFree l && fieldFree r
  | .geE l r => fieldFree l && fieldFree r
  | .subE l r => fieldFree l && fieldFree r
  | .divE l r => fieldFree l && fieldFree r
  | .modE l r => fieldFree l && fieldFree r
  | .assocE _ a rest => fieldFree a && fieldFreeList rest

/-- `fieldFree` over the remaining arguments of an n-ary node. -/
def fieldFreeList : List Expr → Bool
  | [] => true
  | e :: es => fieldFree e && fieldFreeList es

end

/-- `_no_fields` applied to an argument tuple. -/
def noFieldsV (args : List Expr) : Except PyErr Unit :=
  if fieldFreeList args then .ok ()
  else .error (.valueError "Fields are not allowed as arguments")

/-- `_all_args_same_sort`: all arguments must have the sort of the first
argument (the source compares `sort_of` of the first argument against
each of the remaining ones). -/
def sameSortV (args : List Expr) : Except PyErr Unit :=
  match args with
  | [] => .ok ()
  | a :: tail =>
      tail.foldlM (fun _ arg =>
        if sortOf a = sortOf arg then .ok ()
        else .error (.valueError "All arguments must be of the same type")) ()

/-- `_bound_args_sort(allowed_sorts)`: every argument sort must be in the
allowed set (the error text of the source interpolates the operator name
and the allowed set; it is simplified to a constant here). -/
def boundArgsSortV (allowed : List SortT) (args : List Expr) : Except PyErr Unit :=
  args.foldlM (fun _ arg =>
    if sortOf arg ∈ allowed then .ok ()
    else .error (.valueError "operator accepts only instances of the allowed sorts")) ()

/-- `_arithmetic`: `_bound_args_sort(INT, REAL)` followed by
`_all_args_same_sort`. -/
def arithmeticV (args : List Expr) : Except PyErr Unit := do
  boundArgsSortV [INT, REAL] args
  sameSortV args

/-- `_boolean`: `_bound_args_sort(BOOL)` followed by
`_all_args_same_sort`. -/
def booleanV (args : List Expr) : Except PyErr Unit := do
  boundArgsSortV [BOOL] args
  sameSortV args

/-- `_only_pointers`: every argument must be pointer-sorted, then all
must share one sort. -/
def onlyPointersV (args : List Expr) : Except PyErr Unit := do
  args.foldlM (fun _ arg =>
    if ¬ (sortOf arg).isPtr then .error (.valueError "All arguments must be of pointer sort")
    else .ok ()) ()
  sameSortV args

/-- `_no_pointers`: no argument may be pointer-sorted, then all must
share one sort. -/
def noPointersV (args : List Expr) : Except PyErr Unit := do
  args.foldlM (fun _ arg =>
    if (sortOf arg).isPtr then .error (.valueError "Pointer-sorted arguments are not allowed")
    else .ok ()) ()
  sameSortV args

/-- `PtrIsNil`: its own `__post_init__` first requires the argument to be
a `Var` instance; the `_only_pointers` validator then runs (the
`_validate` decorator appends the class validators after the class own
`__post_init__`). -/
def mkPtrIsNil (argument : Expr) : Except PyErr Expr := do
  if ¬ argument.isVarE then throw (.valueError "not isinstance(self.argument, Var)")
  onlyPointersV [argument]
  pure (.isNilE argument)

/-- `PtrIsPtr`: both sides must be `Var` instances (left checked first),
then `_only_pointers`. -/
def mkPtrIsPtr (left right : Expr) : Except PyErr Expr := do
  if ¬ left.isVarE then throw (.valueError "not isinstance(self.left, Var)")
  if ¬ right.isVarE then throw (.valueError "not isinstance(self.right, Var)")
  onlyPointersV [left, right]
  pure (.isPtrE left right)

/-- `Not`: validators `_boolean`, `_no_fields`. -/
def mkNot (argument : Expr) : Except PyErr Expr := do
  booleanV [argument]
  noFieldsV [argument]
  pure (.notE argument)

/-- `Eq`: validators `_no_pointers`, `_no_fields`. -/
def mkEq (left right : Expr) : Except PyErr Expr := do
  noPointersV [left, right]
  noFieldsV [left, right]
  pure (.eqE left right)

/-- `Ne`: validators `_no_pointers`, `_no_fields`. -/
def mkNe (left right : Expr) : Except PyErr Expr := do
  noPointersV [left, right]
  noFieldsV [left, right]
  pure (.neE left right)

/-- The validator chain `_arithmetic`, `_all_args_same_sort`,
`_no_fields` shared by the comparison and binary arithmetic operator
classes (`Lt`, `Le`, `Gt`, `Ge`, `Sub`, `Div`; the repeated same-sort
check of the source is idempotent and kept). -/
def arithChainV (args : List Expr) : Except PyErr Unit := do
  arithmeticV args
  sameSortV args
  noFieldsV args

/-- `Lt`. -/
def mkLt (left right : Expr) : Except PyErr Expr := do
  arithChainV [left, right]
  pure (.ltE left right)

/-- `Le`. -/
def mkLe (left right : Expr) : Except PyErr Expr := do
  arithChainV [left, right]
  pure (.leE left right)

/-- `Gt`. -/
def mkGt (left right : Expr) : Except PyErr Expr := do
  arithChainV [left, right]
  pure (.gtE left right)

/-- `Ge`. -/
def mkGe (left right : Expr) : Except PyErr Expr := do
  arithChainV [left, right]
  pure (.geE left right)

/-- `Sub`. -/
def mkSub (left right : Expr) : Except PyErr Expr := do
  arithChainV [left, right]
  pure (.subE left right)

/-- `Div`. -/
def mkDiv (left right : Expr) : Except PyErr Expr := do
  arithChainV [left, right]
  pure (.divE left right)

/-- `Mod`: validators `_bound_args_sort(INT)`, `_no_fields`. -/
def mkMod (left right : Expr) : Except PyErr Expr := do
  boundArgsSortV [INT] [left, right]
  noFieldsV [left, right]
  pure (.modE left right)

/-- `Negate`: validators `_arithmetic`, `_no_fields`. -/
def mkNegate (argument : Expr) : Except PyErr Expr := do
  arithmeticV [argument]
  noFieldsV [argument]
  pure (.negE argument)

/-- One step of the `_AssociativeOperator.__init__` flattening: an
argument that is an instance of the same concrete class contributes its
own argument tuple, any other argument contributes itself. -/
def expand (k : AssocKind) (e : Expr) : List Expr :=
  match e with
  | .assocE k2 a rest => if k2 = k then a :: rest else [e]
  | _ => [e]

/-- The validators of the four associative classes: `And`/`Or` use
`_boolean` then `_no_fields`; `Add`/`Mul` use `_arithmetic`,
`_all_args_same_sort`, `_no_fields`. -/
def assocV (k : AssocKind) (args : List Expr) : Except PyErr Unit :=
  match k with
  | .andK => do booleanV args; noFieldsV args
  | .orK => do booleanV args; noFieldsV args
  | .addK => arithChainV args
  | .mulK => arithChainV args

/-- `_AssociativeOperator.__init__` (shared by `And`, `Or`, `Add`,
`Mul`): at least two arguments (`arg1`, `args2`, `*args` in the source),
nested same-class arguments are flattened in encounter order, and the
class validators then run on the flattened tuple.  The flattened list is
provably nonempty (`expand` never returns `[]`); the dead `[]` arm keeps
the match total. -/
def mkAssoc (k : AssocKind) (arg1 arg2 : Expr) (args : List Expr) : Except PyErr Expr :=
  match (arg1 :: arg2 :: args).flatMap (expand k) with
  | [] => .error (.valueError "unreachable: flattening two or more arguments is nonempty")
  | x :: xs => do
      assocV k (x :: xs)
      pure (.assocE k x xs)

/-- `And`. -/
def mkAnd (arg1 arg2 : Expr) (args : List Expr) : Except PyErr Expr :=
  mkAssoc .andK arg1 arg2 args

/-- `Or`. -/
def mkOr (arg1 arg2 : Expr) (args : List Expr) : Except PyErr Expr :=
  mkAssoc .orK arg1 arg2 args

/-- `Add`. -/
def mkAdd (arg1 arg2 : Expr) (args : List Expr) : Except PyErr Expr :=
  mkAssoc .addK arg1 arg2 args

/-- `Mul`. -/
def mkMul (arg1 arg2 : Expr) (args : List Expr) : Except PyErr Expr :=
  mkAssoc .mulK arg1 arg2 args

/-- Instructions (`ir/instructions.py`).  Every variant carries the
optional `label` of the `_Labeled` base class.  `skip` models the `Skip`
no-op class (present in the source although outside the `Instruction`
type alias, which is typing-only). -/
inductive Instr where
  | ptrAssignNil (pointer : Var) (label : Option String)
  | ptrAssignPtr (left right : Var) (label : Option String)
  | ptrAssignField (left : Var) (right : FieldE) (label : Option String)
  | fieldAssignNil (fld : FieldE) (label : Option String)
  | fieldAssignPtr (left : FieldE) (right : Var) (label : Option String)
  | varAssignExpr (left : Var) (right : Expr) (label : Option String)
  | fieldAssignExpr (left : FieldE) (right : Expr) (label : Option String)
  | newI (pointer : Var) (label : Option String)
  | freeI (pointer : Var) (label : Option String)
  | gotoI (target : String) (label : Option String)
  | ifGoto (condition : Expr) (target : String) (label : Option String)
  | retI (value : Option Expr) (label : Option String)
  | skip (label : Option String)

/-- The `label` attribute of `_Labeled`. -/
def Instr.label : Instr → Option String
  | .ptrAssignNil _ l => l
  | .ptrAssignPtr _ _ l => l
  | .ptrAssignField _ _ l => l
  | .fieldAssignNil _ l => l
  | .fieldAssignPtr _ _ l => l
  | .varAssignExpr _ _ l => l
  | .fieldAssignExpr _ _ l => l
  | .newI _ l => l
  | .freeI _ l => l
  | .gotoI _ l => l
  | .ifGoto _ _ l => l
  | .retI _ l => l
  | .skip l => l

/-- `_Labeled.with_label`: a copy of the instruction carrying the given
label (the source deep-copies and overwrites the frozen field). -/
def Instr.withLabel : Instr → String → Instr
  | .ptrAssignNil p _, l => .ptrAssignNil p (some l)
  | .ptrAssignPtr a b _, l => .ptrAssignPtr a b (some l)
  | .ptrAssignField a b _, l => .ptrAssignField a b (some l)
  | .fieldAssignNil f _, l => .fieldAssignNil f (some l)
  | .fieldAssignPtr a b _, l => .fieldAssignPtr a b (some l)
  | .varAssignExpr a b _, l => .varAssignExpr a b (some l)
  | .fieldAssignExpr a b _, l => .fieldAssignExpr a b (some l)
  | .newI p _, l => .newI p (some l)
  | .freeI p _, l => .freeI p (some l)
  | .gotoI t _, l => .gotoI t (some l)
  | .ifGoto c t _, l => .ifGoto c t (some l)
  | .retI v _, l => .retI v (some l)
  | .skip _, l => .skip (some l)

/-- `IfGoto.__post_init__`: the condition must be of `BOOL` sort. -/
def mkIfGoto (condition : Expr) (target : String) (label : Option String) :
    Except PyErr Instr :=
  if sortOf condition = BOOL then .ok (.ifGoto condition target label)
  else .error (.valueError "Condition of IfElse must be of BOOL sort")

/-- `Goto` (no validation). -/
def mkGoto (target : String) (label : Option String) : Except PyErr Instr :=
  .ok (.gotoI target label)

/-- `VarAssignExpr.__post_init__`: the left side must not be
pointer-sorted and both sides must have the same sort. -/
def mkVarAssignExpr (left : Var) (right : Expr) (label : Option String) :
    Except PyErr Instr :=
  if (sortOf (.evar left)).isPtr then .error (.valueError "sort_of(self.left).is_ptr()")
  else if sortOf (.evar left) ≠ sortOf right then
    .error (.valueError "sort_of(self.left) is not sort_of(self.right)")
  else .ok (.varAssignExpr left right label)

/-- `FieldAssignExpr.__post_init__`: left not pointer-sorted, right not a
`Field`, same sorts. -/
def mkFieldAssignExpr (left : FieldE) (right : Expr) (label : Option String) :
    Except PyErr Instr :=
  if (sortOf (.efld left)).isPtr then .error (.valueError "sort_of(self.left).is_ptr()")
  else match right with
    | .efld _ => .error (.valueError "isinstance(self.right, Field)")
    | _ =>
      if sortOf (.efld left) ≠ sortOf right then
        .error (.valueError "sort_of(self.left) is not sort_of(self.right)")
      else .ok (.fieldAssignExpr left right label)

/-- `PtrAssignNil.__post_init__`. -/
def mkPtrAssignNil (pointer : Var) (label : Option String) : Except PyErr Instr :=
  if ¬ (sortOf (.evar pointer)).isPtr then .error (.valueError "not sort_of(self.pointer).is_ptr()")
  else .ok (.ptrAssignNil pointer label)

/-- `PtrAssignPtr.__post_init__`: both variables pointer-sorted with the
identical pointer sort. -/
def mkPtrAssignPtr (left right : Var) (label : Option String) : Except PyErr Instr :=
  if ¬ (sortOf (.evar left)).isPtr then .error (.valueError "sort_of(self.left) is not POINTER")
  else if ¬ (sortOf (.evar right)).isPtr then .error (.valueError "sort_of(self.right) is not POINTER")
  else if left.sort ≠ right.sort then
    .error (.valueError "self.left and self.right must have the same pointer sort")
  else .ok (.ptrAssignPtr left right label)

/-- `PtrAssignField.__post_init__`. -/
def mkPtrAssignField (left : Var) (right : FieldE) (label : Option String) : Except PyErr Instr :=
  if ¬ (sortOf (.evar left)).isPtr then .error (.valueError "not sort_of(self.left).is_ptr()")
  else if ¬ (sortOf (.efld right)).isPtr then .error (.valueError "not sort_of(self.right).is_ptr()")
  else if sortOf (.evar left) ≠ sortOf (.efld right) then
    .error (.valueError "sort_of(self.left) is not sort_of(self.right)")
  else .ok (.ptrAssignField left right label)

/-- `FieldAssignNil.__post_init__`. -/
def mkFieldAssignNil (fld : FieldE) (label : Option String) : Except PyErr Instr :=
  if ¬ (sortOf (.efld fld)).isPtr then .error (.valueError "sort_of(self.field) is not POINTER")
  else .ok (.fieldAssignNil fld label)

/-- `FieldAssignPtr.__post_init__` (both sides pointer-sorted; the sorts
are not compared). -/
def mkFieldAssignPtr (left : FieldE) (right : Var) (label : Option String) : Except PyErr Instr :=
  if ¬ (sortOf (.efld left)).isPtr then .error (.valueError "sort_of(self.left) is not POINTER")
  else if ¬ (sortOf (.evar right)).isPtr then .error (.valueError "sort_of(self.right) is not POINTER")
  else .ok (.fieldAssignPtr left right label)

/-- `New.__post_init__`. -/
def mkNew (pointer : Var) (label : Option String) : Except PyErr Instr :=
  if ¬ (sortOf (.evar pointer)).isPtr then .error (.valueError "sort_of(self.pointer) is not POINTER")
  else .ok (.newI pointer label)

/-- `Free.__post_init__`. -/
def mkFree (pointer : Var) (label : Option String) : Except PyErr Instr :=
  if ¬ (sortOf (.evar pointer)).isPtr then .error (.valueError "not sort_of(self.pointer).is_ptr()")
  else .ok (.freeI pointer label)

/-- `Return` (no validation of its own). -/
def mkReturn (value : Option Expr) (label : Option String) : Except PyErr Instr :=
  .ok (.retI value label)

/-- `ir.instructions.InstructionInfo.next_pc`: a single successor pc, or
a `(then_pc, else_pc)` pair for a conditional jump. -/
inductive NextPC where
  | straight (pc : Nat)
  | branch (thenPC elsePC : Nat)

/-- `ir.instructions.InstructionInfo`. -/
structure InstructionInfo where
  pc : Nat
  nextPC : NextPC

/-- `ir.enviroment.Enviroment` (field names as in the source).  The
`local_vars` Python set is modelled as a list; the checked statements
about environments either hold for every list or add the corresponding
no-duplicates hypothesis. -/
structure Enviroment where
  node_sort : SortT
  root : Var
  local_vars : List Var

/-- `Enviroment.vars`: `local_vars | {root}`. -/
def Enviroment.varsAll (e : Enviroment) : List Var :=
  e.root :: e.local_vars

/-- `Enviroment.__post_init__`, checks in source order: the root sort is
the (interned) `Pointer(node_sort)`; no local shares the root name; all
names (root and locals) are pairwise distinct; no local has a struct
sort; every pointer-sorted local points to `node_sort`. -/
def mkEnviroment (node_sort : SortT) (root : Var) (local_vars : List Var) :
    Except PyErr Enviroment :=
  if root.sort ≠ .ptrS node_sort then
    .error (.valueError "self.root.sort is not Pointer(self.node_sort)")
  else if local_vars.any (fun v => root.name = v.name) then
    .error (.valueError "a local variable shares the root name")
  else if ¬ (root.name :: local_vars.map Var.name).Nodup then
    .error (.valueError "variable names are not pairwise distinct")
  else if local_vars.any (fun v => v.sort.isStruct) then
    .error (.valueError "a local variable has a struct sort")
  else if local_vars.any (fun v => v.sort.isPtr ∧ v.sort ≠ .ptrS node_sort) then
    .error (.valueError "a pointer local does not point to node_sort")
  else .ok ⟨node_sort, root, local_vars⟩

/-- The value passed as the `env` argument of `Function`.  The dataclass
annotation declares `Enviroment`, and the IR tests pass one; but
`FuncDefVisitor.visit_FuncDef` passes `self.scopes.vars`, a plain
`set[Var]`.  Python does not check annotations, so both shapes occur at
runtime and attribute access on the raw set raises `AttributeError`. -/
inductive EnvArg where
  | envE (e : Enviroment)
  | rawSet (vs : List Var)

/-- Attribute access `env.vars`.  On an `Enviroment` this is the `vars`
cached property; on the raw `set[Var]` passed by the lowering pass it
raises `AttributeError`. -/
def EnvArg.varsAttr : EnvArg → Except PyErr (List Var)
  | .envE e => .ok e.varsAll
  | .rawSet _ => .error (.attributeError "set object has no attribute vars")

/-- Attribute access `env.root`. -/
def EnvArg.rootAttr : EnvArg → Except PyErr Var
  | .envE e => .ok e.root
  | .rawSet _ => .error (.attributeError "set object has no attribute root")

/-- Attribute access `env.node_sort`. -/
def EnvArg.nodeSortAttr : EnvArg → Except PyErr SortT
  | .envE e => .ok e.node_sort
  | .rawSet _ => .error (.attributeError "set object has no attribute node_sort")

/-- Attribute access `p.sort` on a `Pointer` sort instance, as performed
by `Function._validate_expression` (line 112) and
`Function._validate_instruction` (line 96).  The `Pointer` class of
`ir/_internal/sorts/natives.py` defines the attributes `name`,
`pointee` and `_pointee_id` only (the attribute named `sort` exists just
in the stale copy of the sorts module kept in
`ir/_internal/sorts/__init__.py`, which nothing imports), so this access
raises `AttributeError` for every pointer instance. -/
def pointerSortAttr (_s : SortT) : Except PyErr SortT :=
  .error (.attributeError "Pointer object has no attribute sort")

/-- The `Var` arm of `Function._validate_expression`: membership of the
variable in `env.vars`, then, for pointer-sorted variables, the
comparison `sort_op.sort is not self.env.node_sort` whose left operand
is the failing attribute access above. -/
def validateVar (env : EnvArg) (v : Var) : Except PyErr Unit := do
  let vs ← env.varsAttr
  if v ∉ vs then throw (.valueError "Variable not in environment")
  if ¬ (sortOf (.evar v)).isPtr then pure ()
  else do
    let inner ← pointerSortAttr v.sort
    let ns ← env.nodeSortAttr
    if inner ≠ ns then throw (.valueError "Variable has invalid sort") else pure ()

/-- `Function._validate_expression`.  The `Field` arm validates the base
variable (the recursive call dispatches to the `Var` arm because
`Field.ptr` is always a `Var`) and then checks membership of the field
name in `env.node_sort.fields`.  The `Operator` arm of the source is
`all(self._validate_expression(arg) for arg in op.args())`: the
generator yields `None` (falsy) for the first argument, so `all` stops
after validating only the first argument (unless that validation
raises); the embedding mirrors this by recursing on the first argument
only. -/
def validateExpression (env : EnvArg) : Expr → Except PyErr Unit
  | .evar v => validateVar env v
  | .efld f => do
      validateVar env f.ptr
      let ns ← env.nodeSortAttr
      if ¬ ns.isStruct then throw (.attributeError "Sort object has no attribute fields")
      else if ¬ ns.hasField f.name then throw (.valueError "Field not in environment")
      else pure ()
  | .isNilE a => validateExpression env a
  | .notE a => validateExpression env a
  | .negE a => validateExpression env a
  | .isPtrE l _ => validateExpression env l
  | .eqE l _ => validateExpression env l
  | .neE l _ => validateExpression env l
  | .ltE l _ => validateExpression env l
  | .leE l _ => validateExpression env l
  | .gtE l _ => validateExpression env l
  | .geE l _ => validateExpression env l
  | .subE l _ => validateExpression env l
  | .divE l _ => validateExpression env l
  | .modE l _ => validateExpression env l
  | .assocE _ a _ => validateExpression env a
  | .intLit _ => pure ()
  | .enumLit _ _ => pure ()

/-- `Function._validate_instruction` (match arms in source order; the
`Free`/`New` arm evaluates `pointer.sort.sort`, the failing attribute
access, before comparing with `env.node_sort`). -/
def validateInstruction (env : EnvArg) : Instr → Except PyErr Unit
  | .ifGoto c _ _ => validateExpression env c
  | .ptrAssignNil p _ => validateExpression env (.evar p)
  | .ptrAssignPtr l r _ => do
      validateExpression env (.evar l)
      validateExpression env (.evar r)
  | .ptrAssignField l r _ => do
      validateExpression env (.evar l)
      validateExpression env (.efld r)
  | .fieldAssignNil f _ => validateExpression env (.efld f)
  | .fieldAssignPtr l r _ => do
      validateExpression env (.efld l)
      validateExpression env (.evar r)
  | .varAssignExpr l r _ => do
      validateExpression env (.evar l)
      validateExpression env r
  | .fieldAssignExpr l r _ => do
      validateExpression env (.efld l)
      validateExpression env r
  | .retI (some e) _ => validateExpression env e
  | .freeI p _ => do
      let inner ← pointerSortAttr p.sort
      let ns ← env.nodeSortAttr
      if inner ≠ ns then throw (.valueError "pointer.sort.sort is not self.env.node_sort")
      else pure ()
  | .newI p _ => do
      let inner ← pointerSortAttr p.sort
      let ns ← env.nodeSortAttr
      if inner ≠ ns then throw (.valueError "pointer.sort.sort is not self.env.node_sort")
      else pure ()
  | .retI none _ => pure ()
  | .gotoI _ _ => pure ()
  | .skip _ => pure ()

/-- `Function._build_labels`: scan the sequence, recording each label
with its index and raising on duplicates. -/
def buildLabels (instructions : List Instr) : Except PyErr (List (String × Nat)) := do
  let (_, labels) ← instructions.foldlM
    (fun (acc : Nat × List (String × Nat)) instr => do
      let (idx, labels) := acc
      match instr.label with
      | some l =>
          if (labels.lookup l).isSome then
            throw (.valueError "Duplicate label")
          else pure (idx + 1, labels ++ [(l, idx)])
      | none => pure (idx + 1, labels))
    (0, [])
  pure labels

/-- Subscript `labels[target]` in `_build_info`: a missing label raises
`KeyError`. -/
def labelIndex (labels : List (String × Nat)) (target : String) : Except PyErr Nat :=
  match labels.lookup target with
  | some i => .ok i
  | none => .error (.keyError "label not found")

/-- `Function._build_info`: for an `IfGoto` the pair (label target,
fall-through `idx + 1`); for a `Goto` the label target; otherwise
`idx + 1`.  The source keys the dict by `id(instr)`; for sequences of
pairwise-distinct instruction objects (as everywhere in the repository)
that is the same as indexing by pc, which is how the map is represented
here. -/
def buildInfo (instructions : List Instr) (labels : List (String × Nat)) :
    Except PyErr (List InstructionInfo) := do
  let (_, info) ← instructions.foldlM
    (fun (acc : Nat × List InstructionInfo) instr => do
      let (idx, info) := acc
      match instr with
      | .ifGoto _ target _ =>
          let t ← labelIndex labels target
          pure (idx + 1, info ++ [⟨idx, .branch t (idx + 1)⟩])
      | .gotoI target _ =>
          let t ← labelIndex labels target
          pure (idx + 1, info ++ [⟨idx, .straight t⟩])
      | _ => pure (idx + 1, info ++ [⟨idx, .straight (idx + 1)⟩]))
    (0, [])
  pure info

/-- `ir.function.Function` (the fields of the frozen dataclass, plus the
`_info` map computed in `__post_init__`). -/
structure FunctionIR where
  name : String
  env : EnvArg
  return_type : SortT
  instructions : List Instr
  info : List InstructionInfo

/-- `Function.__post_init__` in source order: build the label table,
build the successor map, validate every instruction, require the root to
be pointer-sorted, and require every `Return` to match `return_type`
(`UNIT` for a valueless return).  Any failure aborts construction. -/
def mkFunction (name : String) (env : EnvArg) (return_type : SortT)
    (instructions : List Instr) : Except PyErr FunctionIR := do
  let labels ← buildLabels instructions
  let info ← buildInfo instructions labels
  instructions.forM (validateInstruction env)
  let rootV ← env.rootAttr
  if ¬ (sortOf (.evar rootV)).isPtr then
    throw (.valueError "sort_of(self.env.root) is not POINTER")
  instructions.forM (fun instr =>
    match instr with
    | .retI v _ =>
        let s := match v with
          | none => UNIT
          | some e => sortOf e
        if s ≠ return_type then
          throw (.valueError "sort_of(instr.value) is not self.return_type")
        else pure ()
    | _ => pure ())
  pure ⟨name, env, return_type, instructions, info⟩

/-- `Function.info_at(pc)`: the instruction at `pc` is looked up in the
precomputed map (out-of-range access raises `IndexError` in Python;
`none` here). -/
def infoAt (f : FunctionIR) (pc : Nat) : Option InstructionInfo :=
  f.info.get? pc

/-- The label table and successor map of an instruction sequence, as
`__post_init__` computes them before instruction validation runs. -/
def functionInfo (instructions : List Instr) : Except PyErr (List InstructionInfo) := do
  let labels ← buildLabels instructions
  buildInfo instructions labels

/-! ## The interning pool of `Sort.__new__`

`ir/_internal/sorts/Sort.py` keeps one class-level dictionary `_pool`
mapping each constructed instance to its canonical representative:
`__new__` builds a candidate, inserts it if no equal key is present, and
returns the pooled entry.  Dataclass equality compares the concrete
class and its compare-fields, so the pool key of an instance is exactly
its construction payload; `Pointer` excludes `pointee` from comparison
and compares `_pointee_id = id(pointee)` instead, i.e. pointer payloads
compare by the identity of the pointee instance.

The pool is modelled as a list of payload keys; the index of a key is
the identity of the canonical instance, and pointee identity is the
pointee index.  `Struct` hashes its field names as a `frozenset` and
its data fields as a `frozendict`, so its payload key here is understood
to be canonically ordered; the `Enum` flags `frozendict` likewise. -/

/-- Construction payloads (pool keys) of the sort classes.  Data-field
sorts inside a struct payload are themselves interned instances and are
referenced by their pool index, as is the pointee of a pointer. -/
inductive SortKey where
  | intK
  | realK
  | unitK
  | enumK (name : String) (flags : List (String × Int))
  | structK (name : String) (ptrs : List String) (flds : List (String × Nat))
  | ptrK (pointeeId : Nat)
deriving DecidableEq, Repr

/-- Index of the first pool entry equal to the key. -/
def idxOfKey : List SortKey → SortKey → Option Nat
  | [], _ => none
  | x :: xs, k => if x = k then some 0 else (idxOfKey xs k).map (· + 1)

/-- The interning pool. -/
structure Registry where
  pool : List SortKey
deriving DecidableEq, Repr

/-- The empty pool. -/
def Registry.empty : Registry := ⟨[]⟩

/-- `Sort.__new__`: return the canonical instance (index) of the key,
inserting the freshly built candidate when no equal key is pooled. -/
def internKey (r : Registry) (k : SortKey) : Nat × Registry :=
  match idxOfKey r.pool k with
  | some i => (i, r)
  | none => (r.pool.length, ⟨r.pool ++ [k]⟩)

/-! ## Name mangling of the scope stack

`ScopeStack.declare_variable` builds `f-string` names
`f"{name}_{self.vars_counters[name]}"`.  `decRepr` models Python
`str(int)` on the (non-negative) counters: the usual decimal digits. -/

/-- The decimal digit character for `d < 10` (codepoint `48 + d`). -/
def digitChar10 (d : Nat) : Char := Char.ofNat (48 + d)

/-- Decimal digits of `n`, most significant first, computed with
structural fuel (any fuel above `n` gives the digits of `n`). -/
def decChars : Nat → Nat → List Char
  | 0, _ => []
  | fuel + 1, n =>
      if n < 10 then [digitChar10 n]
      else decChars fuel (n / 10) ++ [digitChar10 (n % 10)]

/-- Python `str(n)` for a natural `n`. -/
def decRepr (n : Nat) : String := ⟨decChars (n + 1) n⟩

/-- The mangled name `f"{base}_{n}"`. -/
def mangle (base : String) (n : Nat) : String := base ++ "_" ++ decRepr n

/-- `parser/_internal/cparser/ScopeStack.py`.  `stack` holds the scope
frames with the innermost frame first (the source appends to the right
of a deque and iterates it reversed; frames are name-to-Var dicts,
modelled as association lists with the newest entry first).  `counters`
is the `vars_counters` defaultdict (missing keys count as `0`; updates
prepend).  `vars` is the accumulated set of declared Vars, in
declaration order (distinctness of the mangled names, proved below,
makes the list faithful to the Python set). -/
structure ScopeState where
  stack : List (List (String × Var))
  counters : List (String × Nat)
  vars : List Var
deriving DecidableEq, Repr

/-- The fresh scope stack built by `ScopeStack()`. -/
def initScope : ScopeState := ⟨[], [], []⟩

/-- `vars_counters[name]` with the defaultdict default `0`. -/
def ScopeState.countOf (s : ScopeState) (base : String) : Nat :=
  (s.counters.lookup base).getD 0

/-- `push_scope`. -/
def ScopeState.pushScope (s : ScopeState) : ScopeState :=
  { s with stack := [] :: s.stack }

/-- `pop_scope`: popping an empty stack raises `RuntimeError`. -/
def ScopeState.popScope (s : ScopeState) : Except PyErr ScopeState :=
  match s.stack with
  | [] => .error (.runtimeError "Cannot pop from an empty scope stack.")
  | _ :: rest => .ok { s with stack := rest }

/-- `get_variable`: the innermost frame containing the name wins;
a name in no frame raises `KeyError`. -/
def ScopeState.getVariable (s : ScopeState) (name : String) : Except PyErr Var :=
  match s.stack.findSome? (fun frame => frame.lookup name) with
  | some v => .ok v
  | none => .error (.keyError "Variable not found in any scope.")

/-- `is_variable_declared`. -/
def ScopeState.isVariableDeclared (s : ScopeState) (name : String) : Bool :=
  s.stack.any (fun frame => (frame.lookup name).isSome)

/-- `declare_variable(name, sort)`: requires a frame (the source asserts
this), rejects a name already bound in the innermost frame with
`KeyError`, mangles with the per-base counter, bumps the counter, and
records the new Var in the innermost frame and in `vars`.  (In the
source the counter bump precedes the `Var` constructor, so a rejected
`Unit` sort would still consume a counter value; that state is
unobservable here because the error aborts the run.) -/
def ScopeState.declareVariable (s : ScopeState) (name : String) (sort : SortT) :
    Except PyErr ScopeState :=
  match s.stack with
  | [] => .error (.assertionError "No scope available to declare a variable.")
  | frame :: rest =>
      if (frame.lookup name).isSome then
        .error (.keyError "Variable already declared in the current scope.")
      else do
        let n := s.countOf name
        let v ← mkVar (mangle name n) sort
        .ok { stack := ((name, v) :: frame) :: rest,
              counters := (name, n + 1) :: s.counters,
              vars := s.vars ++ [v] }

/-- One scope-stack operation, for stating trace properties. -/
inductive ScopeOp where
  | push
  | pop
  | declare (name : String) (sort : SortT)
deriving DecidableEq, Repr

/-- Run one operation. -/
def runOp (s : ScopeState) : ScopeOp → Except PyErr ScopeState
  | .push => .ok s.pushScope
  | .pop => s.popScope
  | .declare name sort => s.declareVariable name sort

/-- Run a sequence of operations from a state. -/
def runOps (s : ScopeState) : List ScopeOp → Except PyErr ScopeState
  | [] => .ok s
  | op :: rest => do
      let s2 ← runOp s op
      runOps s2 rest

/-! ## The lowering pipeline

The C grammar itself is delegated to an external library (`pycparser`);
the lowering pass consumes its AST.  The mini AST below models the node
kinds that the checked programs exercise: function definitions with
parameter lists, local declarations without initializers, `=`
assignments, `while`, `return`, identifiers, integer constants and
binary operators.  (The visitors for `if`, `goto`, labels, `malloc` and
`free` follow the same shape and are not needed by any checked
property.)  Source positions (`node.coord.line`) carried by lowering
errors are elided. -/

/-- A C expression node (`c_ast.ID`, `c_ast.Constant` of type `int`,
`c_ast.BinaryOp`). -/
inductive CExpr where
  | cid (name : String)
  | cconstInt (n : Int)
  | cbinOp (op : String) (left right : CExpr)
deriving DecidableEq, Repr

/-- A C statement node. -/
inductive CStmt where
  | cdecl (name : String) (tyName : String)
  | cassign (op : String) (lhs rhs : CExpr)
  | cwhile (cond : CExpr) (body : List CStmt)
  | cret (e : Option CExpr)

/-- A C parameter declaration (a `c_ast.Decl` under a `ParamList`). -/
structure CParam where
  pname : String
  ptype : String
deriving DecidableEq, Repr

/-- A C function definition (`c_ast.FuncDef`): declared return type
name, function name, parameters, compound body. -/
structure CFuncDef where
  retType : String
  fname : String
  params : List CParam
  body : List CStmt

/-- The initial `FileVisitor.sorts` table of known type names. -/
def fileSorts (n : String) : Option SortT :=
  if n = "int" then some INT
  else if n = "bool" then some BOOL
  else if n = "float" then some REAL
  else if n = "double" then some REAL
  else if n = "void" then some UNIT
  else if n = "_Bool" then some BOOL
  else none

/-- `visit_IdentifierType` under a `TypeDecl`: resolve a type name in
the known-sorts table or raise `UnknownTypeError`. -/
def resolveType (known : String → Option SortT) (tyName : String) : Except PyErr SortT :=
  match known tyName with
  | some σ => .ok σ
  | none => .error (.unknownType "Unknown type")

/-- `ExprVisitor.visit_BinaryOp` after both operands are lowered: the
first `match` raises on ill-typed operands (and rewrites pointer
variables under the boolean connectives), the second constructs the IR
operator.  Pointer equality and inequality compile to the
pointer-identity operators. -/
def visitBinaryOp (op : String) (left right : Expr) : Except PyErr Expr := do
  let (left, right) ←
    if op = "!=" ∨ op = "==" then
      if sortOf left ≠ sortOf right then
        throw (.unsupportedFeature "Cannot compare expressions of different sorts.")
      else pure (left, right)
    else if op = "+" ∨ op = "-" ∨ op = "*" ∨ op = "/" ∨ op = "%" ∨
            op = "<" ∨ op = "<=" ∨ op = ">" ∨ op = ">=" then
      if ¬ (sortOf left = sortOf right ∧ (sortOf left).isArith) then
        throw (.unsupportedFeature "Operator requires both operands of the same arithmetic sort.")
      else pure (left, right)
    else if op = "&&" ∨ op = "||" then do
      let left2 ←
        match left with
        | .evar v => if v.sort.isPtr then do mkNot (← mkPtrIsNil left) else pure left
        | _ => pure left
      let right2 ←
        match right with
        | .evar v => if v.sort.isPtr then do mkNot (← mkPtrIsNil right) else pure right
        | _ => pure right
      if ¬ (sortOf left2 = sortOf right2 ∧ sortOf left2 = BOOL) then
        throw (.unsupportedFeature "Operator requires both operands of the same Boolean sort.")
      else pure (left2, right2)
    else pure (left, right)
  match op with
  | "+" => mkAdd left right []
  | "-" => mkSub left right
  | "*" => mkMul left right []
  | "/" => mkDiv left right
  | "%" => mkMod left right
  | "<" => mkLt left right
  | "<=" => mkLe left right
  | ">" => mkGt left right
  | ">=" => mkGe left right
  | "&&" => mkAnd left right []
  | "||" => mkOr left right []
  | "==" => if (sortOf left).isPtr then mkPtrIsPtr left right else mkEq left right
  | "!=" => if (sortOf left).isPtr then do mkNot (← mkPtrIsPtr left right) else mkNe left right
  | _ => throw (.unsupportedFeature "Binary operator is not supported.")

/-- `ExprVisitor.visit` on the modelled expression node kinds.  In the
source, `visit_ID` on an undeclared name calls
`UndefinedSymbolError(msg)` with one argument although that class takes
`(line, name)`, so the raise itself fails with `TypeError`; the error
kind here records that. -/
def visitCExpr (s : ScopeState) : CExpr → Except PyErr Expr
  | .cid name =>
      if ¬ s.isVariableDeclared name then
        .error (.typeError "UndefinedSymbolError.__init__ missing argument")
      else do
        let v ← s.getVariable name
        pure (.evar v)
  | .cconstInt n => pure (.intLit n)
  | .cbinOp op l r => do
      let le ← visitCExpr s l
      let re ← visitCExpr s r
      visitBinaryOp op le re

/-- `FuncDefVisitor.visit_condition`: a pointer-sorted variable becomes
`Not(PtrIsNil(v))`; a variable of any other sort reaches the class
pattern `Var(_, Bool())`, whose name `Bool` is unbound in the visitor
module, raising `NameError`; a non-variable condition is accepted when
its sort is `BOOL` and rejected otherwise. -/
def visitCondition (s : ScopeState) (ce : CExpr) : Except PyErr Expr := do
  let cond ← visitCExpr s ce
  match cond with
  | .evar v =>
      if v.sort.isPtr then do mkNot (← mkPtrIsNil cond)
      else throw (.nameError "name Bool is not defined")
  | _ =>
      if sortOf cond = BOOL then pure cond
      else throw (.unsupportedFeature "Only boolean expressions and pointers are supported in conditions.")

mutual

/-- Statement lowering of `FuncDefVisitor` (the `visit_Decl`,
`visit_Assignment`, `visit_While`, `visit_Return` methods), threading
the scope stack and the `cond_counter` used for synthesized labels.
Notes kept faithful to the source:

- `visit_Assignment` checks `sort_of(lvalue) is sort_of(rvalue)` before
  dispatching on the shapes, so the nil-assignment arms guarded by a
  literal `0` are unreachable; they are kept.
- In `visit_While` the body generator is consumed before the labels are
  read, so the labels use the counter value after nested statements are
  lowered; an empty body fails the `first, *tail` unpacking with
  `ValueError`.  The `isinstance(whilebody_first, c_ast.Label)` test
  compares an instruction against an AST class and is always false, so
  the body label is always synthesized.
- `visit_Return` rewrites a pointer variable to `Not(PtrIsNil(v))` when
  the declared return sort is `BOOL`, then checks the sort against the
  declared return sort. -/
def lowerStmt (known : String → Option SortT) (ret : SortT) (s : ScopeState) (cc : Nat) :
    CStmt → Except PyErr (ScopeState × Nat × List Instr)
  | .cdecl name tyName => do
      let σ ← resolveType known tyName
      let s2 ← s.declareVariable name σ
      pure (s2, cc, [])
  | .cassign op lhs rhs => do
      let lv ←
        match lhs with
        | .cid _ => visitCExpr s lhs
        | _ => throw (.unsupportedFeature "Only simple variable assignments are supported.")
      let rv ← visitCExpr s rhs
      if op = "=" then
        if sortOf lv ≠ sortOf rv then
          throw (.unsupportedFeature "Type mismatch between left-hand side and right-hand side.")
        else if (sortOf lv).isPtr then
          match lv, rv with
          | .evar v, .intLit 0 => do
              let i ← mkPtrAssignNil v none
              pure (s, cc, [i])
          | .evar v, .evar w => do
              let i ← mkPtrAssignPtr v w none
              pure (s, cc, [i])
          | .evar v, .efld f => do
              let i ← mkPtrAssignField v f none
              pure (s, cc, [i])
          | .efld f, .intLit 0 => do
              let i ← mkFieldAssignNil f none
              pure (s, cc, [i])
          | .efld f, .evar w => do
              let i ← mkFieldAssignPtr f w none
              pure (s, cc, [i])
          | _, _ => throw (.unsupportedFeature "Unsupported assignment operation for pointer types.")
        else
          match lv with
          | .evar v => do
              let i ← mkVarAssignExpr v rv none
              pure (s, cc, [i])
          | .efld f => do
              let i ← mkFieldAssignExpr f rv none
              pure (s, cc, [i])
          | _ => pure (s, cc, [])
      else throw (.unsupportedFeature "Unsupported assignment operator.")
  | .cwhile c body => do
      let cond ← visitCondition s c
      let (s2, cc2, bodyIs) ← lowerStmtList known ret s cc body
      match bodyIs with
      | [] => throw (.valueError "not enough values to unpack")
      | first :: tail => do
          let bodyLabel := "#WHILE_BODY_" ++ decRepr cc2
          let condLabel := "#WHILE_COND_" ++ decRepr cc2
          let last ← mkIfGoto cond bodyLabel (some condLabel)
          pure (s2, cc2 + 1,
            .gotoI condLabel none :: first.withLabel bodyLabel :: tail ++ [last])
  | .cret e => do
      let retExpr ←
        match e with
        | none => pure (none : Option Expr)
        | some ce => do
            let x ← visitCExpr s ce
            pure (some x)
      let retExpr ←
        match retExpr with
        | some (.evar v) =>
            if ret = BOOL ∧ v.sort.isPtr then do
              pure (some (← mkNot (← mkPtrIsNil (.evar v))))
            else pure retExpr
        | _ => pure retExpr
      let rsort :=
        match retExpr with
        | none => UNIT
        | some x => sortOf x
      if rsort ≠ ret then
        throw (.unsupportedFeature "Return statement type does not match expected type.")
      else if rsort = UNIT then pure (s, cc, [.retI none none])
      else pure (s, cc, [.retI retExpr none])

/-- `visit_Compound`: lower the block items in order, concatenating the
yielded instructions. -/
def lowerStmtList (known : String → Option SortT) (ret : SortT) (s : ScopeState) (cc : Nat) :
    List CStmt → Except PyErr (ScopeState × Nat × List Instr)
  | [] => pure (s, cc, [])
  | st :: rest => do
      let (s2, cc2, is1) ← lowerStmt known ret s cc st
      let (s3, cc3, is2) ← lowerStmtList known ret s2 cc2 rest
      pure (s3, cc3, is1 ++ is2)

end

/-- The part of `FuncDefVisitor.visit_FuncDef` that precedes `Function`
construction: push a scope, resolve the declared return sort and name
(`visit_FuncDecl`), declare the parameters, lower the body, pop the
scope; the accumulated components are the constructor arguments
`(func_name, self.scopes.vars, return_sort, instructions)`. -/
def visitFuncDefParts (fd : CFuncDef) :
    Except PyErr (String × List Var × SortT × List Instr) := do
  let s0 := initScope.pushScope
  let retSort ← resolveType fileSorts fd.retType
  let s1 ← fd.params.foldlM
    (fun (s : ScopeState) p => do
      let σ ← resolveType fileSorts p.ptype
      s.declareVariable p.pname σ)
    s0
  let (s2, _, instrs) ← lowerStmtList fileSorts retSort s1 0 fd.body
  let s3 ← s2.popScope
  pure (fd.fname, s3.vars, retSort, instrs)

/-- `FuncDefVisitor.visit_FuncDef`: assemble the `Function` from the
lowered components — passing `self.scopes.vars` (a plain set) as the
`env` argument — and reinterpret an `IncompatibleReturnTypeError` as
`UnsupportedFeatureError`; any other exception propagates. -/
def visitFuncDef (fd : CFuncDef) : Except PyErr FunctionIR := do
  let (fname, vars, retSort, instrs) ← visitFuncDefParts fd
  match mkFunction fname (.rawSet vars) retSort instrs with
  | .error (.incompatibleReturnType _) =>
      throw (.unsupportedFeature "Return type of function is incompatible with its return statements.")
  | .error e => throw e
  | .ok f => pure f

/-- The numeric value of a digit string. -/
def val10 (l : List Char) : Nat :=
  l.foldl (fun a c => 10 * a + (c.toNat - 48)) 0

/-- The invariant carried by every reachable scope-stack state: every
recorded Var is a mangled name whose counter is strictly below the
current per-base counter, and the recorded mangled names are pairwise
distinct. -/
def ScopeInv (s : ScopeState) : Prop :=
  (∀ v ∈ s.vars, ∃ bs k, v.name = mangle bs k ∧ k < s.countOf bs) ∧
  (s.vars.map Var.name).Nodup

/-- Shape of the validator results: success, or a `ValueError`. -/
def VEShape (x : Except PyErr Unit) : Prop :=
  x = .ok () ∨ ∃ m, x = .error (.valueError m)

/-! ## Concrete data used by the checked properties -/

/-- The external C AST (as produced by the delegated C-parsing library)
of `int sum(int a, int b) { return a + b; }`. -/
def sumAST : CFuncDef :=
  ⟨"int", "sum", [⟨"a", "int"⟩, ⟨"b", "int"⟩],
    [.cret (some (.cbinOp "+" (.cid "a") (.cid "b")))]⟩

/-- The external C AST of
`void f() { int n; n = 10; while (n > 0) { n = n - 1; } }`. -/
def whileAST : CFuncDef :=
  ⟨"void", "f", [],
    [.cdecl "n" "int",
     .cassign "=" (.cid "n") (.cconstInt 10),
     .cwhile (.cbinOp ">" (.cid "n") (.cconstInt 0))
       [.cassign "=" (.cid "n") (.cbinOp "-" (.cid "n") (.cconstInt 1))]]⟩

/-- The mangled int parameters produced for `sum`. -/
def aV : Var := ⟨"a_0", INT⟩

/-- See `aV`. -/
def bV : Var := ⟨"b_0", INT⟩

/-- The mangled local produced for `f`. -/
def nV : Var := ⟨"n_0", INT⟩

/-- The `BSTNode` struct sort of the CFG example
(`tests/unit/ir/function_test.py`): self-pointer fields `left` and
`right`, data field `value` of sort `INT`. -/
def nodeStruct : SortT := .structS "BSTNode" ["left", "right"] (.cons "value" .intS .nil)

/-- `root`, of sort `Pointer(BSTNode)`. -/
def rootNodeV : Var := ⟨"root", .ptrS nodeStruct⟩

/-- `key : INT`. -/
def keyV : Var := ⟨"key", INT⟩

/-- `value : INT`. -/
def valueV : Var := ⟨"value", INT⟩

/-- `curr`, of sort `Pointer(BSTNode)`. -/
def currV : Var := ⟨"curr", .ptrS nodeStruct⟩

/-- The nine instructions of the `bsearch` CFG example, exactly as
constructed in `tests/unit/ir/function_test.py` (each constructor there
succeeds; the values below are the constructed instances). -/
def bsearchInstrs : List Instr :=
  [.ptrAssignPtr currV rootNodeV none,
   .ifGoto (.assocE .andK (.notE (.isNilE (.evar currV))) [.neE (.evar keyV) (.evar valueV)])
     "loop" (some "condition"),
   .gotoI "end" none,
   .ifGoto (.ltE (.evar keyV) (.evar valueV)) "left_branch" (some "loop"),
   .ptrAssignField currV ⟨currV, "right"⟩ none,
   .gotoI "condition" none,
   .ptrAssignField currV ⟨currV, "left"⟩ (some "left_branch"),
   .gotoI "condition" none,
   .retI none (some "end")]

/-- The environment of the `bsearch` example. -/
def bsearchEnv : Enviroment := ⟨nodeStruct, rootNodeV, [keyV, valueV, currV]⟩

/-- A one-pointer-field node struct used by the return-type scenario. -/
def simpleNode : SortT := .structS "Node" ["next"] .nil

/-- A root variable for `simpleNode`. -/
def simpleRootV : Var := ⟨"root", .ptrS simpleNode⟩

/-- The environment of the return-type scenario. -/
def simpleEnv : Enviroment := ⟨simpleNode, simpleRootV, []⟩

/-- The `birfc`-style struct of the expression tests: self-pointer field
`c`, data fields `i : INT` and `b : BOOL`. -/
def birfcStruct : SortT := .structS "birfc" ["c"] (.cons "i" .intS (.cons "b" BOOL .nil))

/-- `p`, of sort `Pointer(birfc)`. -/
def pBirfcV : Var := ⟨"p", .ptrS birfcStruct⟩

/-- The data field `p.i` of sort `INT` (a valid `Field`). -/
def fiF : FieldE := ⟨pBirfcV, "i"⟩

/-- The data field `p.b` of sort `BOOL` (a valid `Field`). -/
def fbF : FieldE := ⟨pBirfcV, "b"⟩

/-- The pointer field `p.c` of sort `Pointer(birfc)` (a valid
`Field`). -/
def fcF : FieldE := ⟨pBirfcV, "c"⟩

/-- `i : INT`. -/
def iIntV : Var := ⟨"i", INT⟩

/-- `b1 : BOOL` and friends, operands for the flattening example. -/
def b1V : Var := ⟨"b1", BOOL⟩

/-- See `b1V`. -/
def b2V : Var := ⟨"b2", BOOL⟩

/-- See `b1V`. -/
def b3V : Var := ⟨"b3", BOOL⟩

/-- See `b1V`. -/
def b4V : Var := ⟨"b4", BOOL⟩

/-- See `b1V`. -/
def b5V : Var := ⟨"b5", BOOL⟩

/-- See `b1V`. -/
def b6V : Var := ⟨"b6", BOOL⟩

/-- The concrete scope-stack trace used by the scope-stack witness:
declare `x`, shadow `x` in a pushed scope, pop it, declare `y`. -/
def witnessOps : List ScopeOp :=
  [.push, .declare "x" INT, .push, .declare "x" INT, .pop, .declare "y" INT]

/-- The state reached by `witnessOps`. -/
def witnessState : ScopeState :=
  ⟨[[("y", ⟨"y_0", INT⟩), ("x", ⟨"x_0", INT⟩)]],
   [("y", 1), ("x", 2), ("x", 1)],
   [⟨"x_0", INT⟩, ⟨"x_1", INT⟩, ⟨"y_0", INT⟩]⟩

/-! ## Lemmas: decimal rendering and mangled-name injectivity -/

/-- The codepoint of a decimal digit character. -/
theorem digitChar10_toNat {d : Nat} (h : d < 10) : (digitChar10 d).toNat = 48 + d := by
  interval_cases d <;> decide

/-- Every character produced by `decChars` is a decimal digit
(codepoints 48 through 57). -/
theorem decChars_digits : ∀ fuel n c, c ∈ decChars fuel n → 48 ≤ c.toNat ∧ c.toNat ≤ 57 := by
  intro fuel
  induction fuel with
  | zero => intro n c hc; simp [decChars] at hc
  | succ fuel ih =>
      intro n c hc
      by_cases h : n < 10
      · simp [decChars, h] at hc
        subst hc
        have := digitChar10_toNat h
        omega
      · simp [decChars, h] at hc
        rcases hc with hc | hc
        · exact ih _ _ hc
        · subst hc
          have hm : n % 10 < 10 := Nat.mod_lt _ (by omega)
          have := digitChar10_toNat hm
          omega

/-- With enough fuel, `decChars` renders exactly `n` (recovered by
`val10`). -/
theorem decChars_val : ∀ fuel n, n < fuel →
    val10 (decChars fuel n) = n := by
  intro fuel
  induction fuel with
  | zero => intro n h; omega
  | succ fuel ih =>
      intro n h
      by_cases h10 : n < 10
      · simp [decChars, h10, val10, List.foldl, digitChar10_toNat h10]
      · have hdiv : n / 10 < n := Nat.div_lt_self (by omega) (by omega)
        have hfuel : n / 10 < fuel := by omega
        have hm : n % 10 < 10 := Nat.mod_lt _ (by omega)
        simp only [decChars, h10, if_false, val10, List.foldl_append, List.foldl]
        have := ih (n / 10) hfuel
        simp only [val10] at this
        rw [this, digitChar10_toNat hm]
        omega

/-- `str(int)` is injective on naturals. -/
theorem decRepr_inj {m n : Nat} (h : decRepr m = decRepr n) : m = n := by
  have hd : decChars (m + 1) m = decChars (n + 1) n := congrArg String.data h
  have hm := decChars_val (m + 1) m (by omega)
  have hn := decChars_val (n + 1) n (by omega)
  rw [hd] at hm
  omega

/-- A digit character is not an underscore. -/
theorem decChars_ne_uscore {fuel n : Nat} {c : Char} (hc : c ∈ decChars fuel n) :
    c ≠ '_' := by
  have := decChars_digits fuel n c hc
  intro he
  subst he
  simp at this

/-- Splitting at an underscore that occurs in neither suffix is
unambiguous. -/
theorem append_uscore_inj : ∀ (a b x y : List Char),
    (∀ c ∈ x, c ≠ '_') → (∀ c ∈ y, c ≠ '_') →
    a ++ '_' :: x = b ++ '_' :: y → a = b ∧ x = y := by
  intro a
  induction a with
  | nil =>
      intro b x y hx hy h
      cases b with
      | nil => simpa using h
      | cons c bs =>
          simp at h
          obtain ⟨hc, hrest⟩ := h
          subst hc
          exfalso
          exact hx '_' (by simp [hrest]) rfl
  | cons c as ih =>
      intro b x y hx hy h
      cases b with
      | nil =>
          simp at h
          obtain ⟨hc, hrest⟩ := h
          subst hc
          exfalso
          exact hy '_' (by simp [← hrest]) rfl
      | cons d bs =>
          simp at h
          obtain ⟨hcd, hrest⟩ := h
          obtain ⟨hab, hxy⟩ := ih bs x y hx hy hrest
          exact ⟨by simp [hcd, hab], hxy⟩

/-- The character data of a mangled name. -/
theorem mangle_data (b : String) (n : Nat) :
    (mangle b n).data = b.data ++ '_' :: decChars (n + 1) n := by
  simp [mangle, decRepr, String.data_append]

/-- Mangled names determine their base name and counter: the counter
digits contain no underscore, so the last underscore is the separator,
and the digit string determines the counter. -/
theorem mangle_inj {b1 b2 : String} {n1 n2 : Nat}
    (h : mangle b1 n1 = mangle b2 n2) : b1 = b2 ∧ n1 = n2 := by
  have hd : (mangle b1 n1).data = (mangle b2 n2).data := congrArg String.data h
  rw [mangle_data, mangle_data] at hd
  have := append_uscore_inj b1.data b2.data _ _
    (fun c hc => decChars_ne_uscore hc) (fun c hc => decChars_ne_uscore hc) hd
  obtain ⟨hb, hx⟩ := this
  constructor
  · exact String.ext hb
  · have hm := decChars_val (n1 + 1) n1 (by omega)
    have hn := decChars_val (n2 + 1) n2 (by omega)
    rw [hx] at hm
    omega

/-! ## Lemmas: the scope stack -/

/-- Characterization of a successful `declare_variable`. -/
theorem declareVariable_ok {s : ScopeState} {name : String} {sort : SortT} {s2 : ScopeState}
    (h : s.declareVariable name sort = .ok s2) :
    ∃ frame rest, s.stack = frame :: rest ∧ frame.lookup name = none ∧
      sort.isUnit = false ∧
      s2 = ⟨((name, ⟨mangle name (s.countOf name), sort⟩) :: frame) :: rest,
            (name, s.countOf name + 1) :: s.counters,
            s.vars ++ [⟨mangle name (s.countOf name), sort⟩]⟩ := by
  unfold ScopeState.declareVariable at h
  cases hstk : s.stack with
  | nil => rw [hstk] at h; simp at h
  | cons frame rest =>
      rw [hstk] at h
      by_cases hl : (frame.lookup name).isSome
      · simp [hl] at h
      · unfold mkVar at h
        by_cases hu : sort.isUnit
        · simp [hl, hu, Bind.bind, Except.bind] at h
        · simp [hl, hu, Bind.bind, Except.bind] at h
          subst h
          have hnone : List.lookup name frame = none := by
            cases hfind : List.lookup name frame with
            | none => rfl
            | some v => rw [hfind] at hl; simp at hl
          exact ⟨frame, rest, rfl, hnone, by simpa using hu, rfl⟩

/-- The counter table after a successful declaration. -/
theorem countOf_after {s : ScopeState} {name : String} {m : Nat} {stk vs} (b : String) :
    ScopeState.countOf ⟨stk, (name, m) :: s.counters, vs⟩ b =
      if b = name then m else s.countOf b := by
  by_cases hb : b = name
  · subst hb
    simp [ScopeState.countOf, List.lookup]
  · have hbn : (b == name) = false := by simp [hb]
    simp [ScopeState.countOf, List.lookup, hbn, hb]

/-- `runOp` preserves the scope-stack invariant. -/
theorem runOp_inv {s : ScopeState} {op : ScopeOp} {s2 : ScopeState}
    (h : runOp s op = .ok s2) (hi : ScopeInv s) : ScopeInv s2 := by
  cases op with
  | push =>
      simp [runOp, ScopeState.pushScope] at h
      subst h
      exact hi
  | pop =>
      simp [runOp, ScopeState.popScope] at h
      cases hstk : s.stack with
      | nil => rw [hstk] at h; simp at h
      | cons f rest =>
          rw [hstk] at h
          simp at h
          subst h
          exact hi
  | declare name sort =>
      simp only [runOp] at h
      obtain ⟨frame, rest, hstk, hlook, hunit, hs2⟩ := declareVariable_ok h
      subst hs2
      obtain ⟨hbound, hnodup⟩ := hi
      constructor
      · intro v hv
        simp at hv
        rcases hv with hv | hv
        · obtain ⟨bs, k, hname, hk⟩ := hbound v hv
          refine ⟨bs, k, hname, ?_⟩
          rw [countOf_after]
          split
          · next he => rw [he] at hk; omega
          · exact hk
        · subst hv
          refine ⟨name, s.countOf name, rfl, ?_⟩
          rw [countOf_after]
          simp
      · simp only [List.map_append, List.map_cons, List.map_nil]
        rw [List.nodup_append]
        refine ⟨hnodup, List.nodup_singleton _, ?_⟩
        intro a ha hb
        simp at hb
        subst hb
        simp at ha
        obtain ⟨v, hv, hvname⟩ := ha
        obtain ⟨bs, k, hname, hk⟩ := hbound v hv
        rw [hname] at hvname
        obtain ⟨hb, hn⟩ := mangle_inj hvname
        subst hb
        omega

/-- `runOps` preserves the scope-stack invariant. -/
theorem runOps_inv : ∀ (ops : List ScopeOp) (s s2 : ScopeState),
    runOps s ops = .ok s2 → ScopeInv s → ScopeInv s2 := by
  intro ops
  induction ops with
  | nil => intro s s2 h hi; simp [runOps] at h; subst h; exact hi
  | cons op rest ih =>
      intro s s2 h hi
      simp only [runOps] at h
      cases hop : runOp s op with
      | error e => rw [hop] at h; simp [Bind.bind, Except.bind] at h
      | ok smid =>
          rw [hop] at h
          simp only [Bind.bind, Except.bind] at h
          exact ih smid s2 h (runOp_inv hop hi)

/-- The initial state satisfies the invariant. -/
theorem initScope_inv : ScopeInv initScope := by
  constructor
  · intro v hv; simp [initScope] at hv
  · simp [initScope]

/-- `get_variable` immediately after a successful declaration of `name`
resolves to the freshly mangled Var. -/
theorem getVariable_after_declare {s : ScopeState} {name : String} {sort : SortT}
    {s2 : ScopeState} (h : s.declareVariable name sort = .ok s2) :
    s2.getVariable name = .ok ⟨mangle name (s.countOf name), sort⟩ ∧
    s2.countOf name = s.countOf name + 1 ∧
    s2.vars = s.vars ++ [⟨mangle name (s.countOf name), sort⟩] := by
  obtain ⟨frame, rest, hstk, hlook, hunit, hs2⟩ := declareVariable_ok h
  subst hs2
  refine ⟨?_, ?_, rfl⟩
  · simp [ScopeState.getVariable, List.findSome?, List.lookup]
  · rw [countOf_after]
    simp

/-- `push_scope` changes neither the counters nor the recorded vars. -/
theorem pushScope_counters (s : ScopeState) (b : String) :
    s.pushScope.countOf b = s.countOf b := rfl

/-! ## Lemmas: the interning pool -/

/-- A found index points at an equal pool entry. -/
theorem idxOfKey_get : ∀ (l : List SortKey) (k : SortKey) (i : Nat),
    idxOfKey l k = some i → l.get? i = some k := by
  intro l
  induction l with
  | nil => intro k i h; simp [idxOfKey] at h
  | cons x xs ih =>
      intro k i h
      by_cases hx : x = k
      · simp [idxOfKey, hx] at h
        subst h
        simp [hx]
      · simp [idxOfKey, hx] at h
        obtain ⟨j, hj, hji⟩ := h
        subst hji
        simpa using ih k j hj

/-- Appending a key missing from the pool makes it found at the old
length. -/
theorem idxOfKey_append_self : ∀ (l : List SortKey) (k : SortKey),
    idxOfKey l k = none → idxOfKey (l ++ [k]) k = some l.length := by
  intro l
  induction l with
  | nil => intro k _; simp [idxOfKey]
  | cons x xs ih =>
      intro k h
      by_cases hx : x = k
      · simp [idxOfKey, hx] at h
      · simp [idxOfKey, hx] at h ⊢
        simp [ih k h]

/-- Interning a key that has just been interned returns the same
instance from the unchanged pool (repeated construction with a
structurally equal payload is idempotent). -/
theorem internKey_idem (r : Registry) (k : SortKey) :
    internKey (internKey r k).2 k = internKey r k := by
  unfold internKey
  cases hidx : idxOfKey r.pool k with
  | some i => simp [hidx]
  | none => simp [hidx, idxOfKey_append_self r.pool k hidx]

/-- The canonical index returned by `internKey` points at the key. -/
theorem internKey_get (r : Registry) (k : SortKey) :
    (internKey r k).2.pool.get? (internKey r k).1 = some k := by
  unfold internKey
  cases hidx : idxOfKey r.pool k with
  | some i => simpa using idxOfKey_get r.pool k i hidx
  | none => simp

/-- Interning preserves existing pool entries. -/
theorem internKey_preserves (r : Registry) (k : SortKey) {j : Nat} {x : SortKey}
    (h : r.pool.get? j = some x) : (internKey r k).2.pool.get? j = some x := by
  unfold internKey
  cases hidx : idxOfKey r.pool k with
  | some i => simpa using h
  | none =>
      have hj : j < r.pool.length := (List.get?_eq_some.mp h).1
      simpa [List.getElem?_append_left hj] using h

/-- Interning two structurally different keys in sequence yields two
distinct canonical instances. -/
theorem internKey_distinct (r : Registry) {k1 k2 : SortKey} (hne : k1 ≠ k2) :
    (internKey (internKey r k1).2 k2).1 ≠ (internKey r k1).1 := by
  intro heq
  have h1 : (internKey r k1).2.pool.get? (internKey r k1).1 = some k1 :=
    internKey_get r k1
  have h1p : (internKey (internKey r k1).2 k2).2.pool.get? (internKey r k1).1 = some k1 :=
    internKey_preserves _ k2 h1
  have h2 : (internKey (internKey r k1).2 k2).2.pool.get?
      (internKey (internKey r k1).2 k2).1 = some k2 :=
    internKey_get _ k2
  rw [heq, h1p] at h2
  exact hne (by injection h2)

/-! ## Lemmas: associative flattening and the no-fields rule -/

/-- A successful two-argument associative construction from operands
that are not same-kind nodes yields the flat two-operand node. -/
theorem mkAssoc_pair {k : AssocKind} {a b ab : Expr}
    (ha : expand k a = [a]) (hb : expand k b = [b])
    (hab : mkAssoc k a b [] = .ok ab) :
    ab = .assocE k a [b] ∧ assocV k [a, b] = .ok () := by
  unfold mkAssoc at hab
  rw [show (a :: b :: ([] : List Expr)).flatMap (expand k) = [a, b] by
    simp [List.flatMap, ha, hb]] at hab
  have hab2 : (do assocV k [a, b]; pure (Expr.assocE k a [b]) : Except PyErr Expr) = .ok ab :=
    hab
  cases hv : assocV k [a, b] with
  | error e => rw [hv] at hab2; simp [Bind.bind, Except.bind] at hab2
  | ok u =>
      rw [hv] at hab2
      simp [Bind.bind, Except.bind, pure, Except.pure] at hab2
      exact ⟨hab2.symm, by simp [hv]⟩

/-- `expand` never returns the empty list. -/
theorem expand_ne_nil (k : AssocKind) (e : Expr) : expand k e ≠ [] := by
  unfold expand
  cases e <;> simp
  split <;> simp

/-- A fold whose body only succeeds or raises `ValueError` has the same
shape. -/
theorem foldlM_VE (f : Unit → Expr → Except PyErr Unit)
    (hf : ∀ u a, VEShape (f u a)) : ∀ l : List Expr, VEShape (List.foldlM f () l) := by
  intro l
  induction l with
  | nil => left; rfl
  | cons a rest ih =>
      rw [List.foldlM_cons]
      rcases hf () a with h | ⟨m, h⟩
      · rw [h]; simpa [Bind.bind, Except.bind] using ih
      · right; exact ⟨m, by simp [h, Bind.bind, Except.bind]⟩

/-- `_bound_args_sort` succeeds or raises `ValueError`. -/
theorem boundArgsSortV_shape (allowed : List SortT) (args : List Expr) :
    VEShape (boundArgsSortV allowed args) := by
  apply foldlM_VE
  intro u a
  unfold VEShape
  split <;> simp

/-- `_all_args_same_sort` succeeds or raises `ValueError`. -/
theorem sameSortV_shape (args : List Expr) : VEShape (sameSortV args) := by
  cases args with
  | nil => left; rfl
  | cons a tail =>
      apply foldlM_VE
      intro u x
      unfold VEShape
      split <;> simp

/-- Binding two shaped computations stays shaped. -/
theorem VEShape_bind {x : Except PyErr Unit} {g : Unit → Except PyErr Unit}
    (hx : VEShape x) (hg : VEShape (g ())) : VEShape (x >>= g) := by
  rcases hx with h | ⟨m, h⟩
  · rw [h]; simpa [Bind.bind, Except.bind] using hg
  · right; exact ⟨m, by simp [h, Bind.bind, Except.bind]⟩

/-- `_no_pointers` succeeds or raises `ValueError`. -/
theorem noPointersV_shape (args : List Expr) : VEShape (noPointersV args) := by
  unfold noPointersV
  apply VEShape_bind
  · apply foldlM_VE
    intro u a
    unfold VEShape
    split <;> simp
  · exact sameSortV_shape args

/-- `_boolean` succeeds or raises `ValueError`. -/
theorem booleanV_shape (args : List Expr) : VEShape (booleanV args) := by
  unfold booleanV
  exact VEShape_bind (boundArgsSortV_shape _ _) (sameSortV_shape args)

/-- `_arithmetic` succeeds or raises `ValueError`. -/
theorem arithmeticV_shape (args : List Expr) : VEShape (arithmeticV args) := by
  unfold arithmeticV
  exact VEShape_bind (boundArgsSortV_shape _ _) (sameSortV_shape args)

/-- An argument list containing a raw `Field` fails the `_no_fields`
check. -/
theorem fieldFreeList_false_of_mem {f : FieldE} : ∀ {args : List Expr},
    Expr.efld f ∈ args → fieldFreeList args = false := by
  intro args
  induction args with
  | nil => intro h; simp at h
  | cons x xs ih =>
      intro h
      rcases List.mem_cons.mp h with h | h
      · subst h
        simp [fieldFreeList, fieldFree]
      · simp [fieldFreeList, ih h]

/-- `_no_fields` rejects an argument list containing a raw `Field`. -/
theorem noFieldsV_err_of_mem {f : FieldE} {args : List Expr}
    (h : Expr.efld f ∈ args) :
    noFieldsV args = .error (.valueError "Fields are not allowed as arguments") := by
  unfold noFieldsV
  rw [fieldFreeList_false_of_mem h]
  rfl

/-- A validator chain ending in `_no_fields` raises some `ValueError`
whenever a raw `Field` occurs among the arguments, whatever the earlier
validators decide. -/
theorem chain_err_of_field {α : Type} (v1 : Except PyErr Unit) {args : List Expr}
    {f : FieldE} (hv1 : VEShape v1) (hmem : Expr.efld f ∈ args) (payload : α) :
    ∃ m, (do v1; noFieldsV args; pure payload : Except PyErr α) = .error (.valueError m) := by
  rcases hv1 with h | ⟨m, h⟩
  · refine ⟨"Fields are not allowed as arguments", ?_⟩
    simp [h, Bind.bind, Except.bind, noFieldsV_err_of_mem hmem]
  · exact ⟨m, by simp [h, Bind.bind, Except.bind]⟩

/-- Two shaped validators followed by `_no_fields` raise a `ValueError`
on a raw `Field` argument. -/
theorem chain3_err_of_field (v1 v2 : Except PyErr Unit) {args : List Expr}
    {f : FieldE} (hv1 : VEShape v1) (hv2 : VEShape v2) (hmem : Expr.efld f ∈ args) :
    ∃ m, (do v1; v2; noFieldsV args : Except PyErr Unit) = .error (.valueError m) := by
  rcases hv1 with h | ⟨m, h⟩
  · rcases hv2 with h2 | ⟨m2, h2⟩
    · refine ⟨"Fields are not allowed as arguments", ?_⟩
      simp [h, h2, Bind.bind, Except.bind, noFieldsV_err_of_mem hmem]
    · exact ⟨m2, by simp [h, h2, Bind.bind, Except.bind]⟩
  · exact ⟨m, by simp [h, Bind.bind, Except.bind]⟩

/-- One shaped validator followed by `_no_fields` raises a `ValueError`
on a raw `Field` argument. -/
theorem chain2_err_of_field (v1 : Except PyErr Unit) {args : List Expr}
    {f : FieldE} (hv1 : VEShape v1) (hmem : Expr.efld f ∈ args) :
    ∃ m, (do v1; noFieldsV args : Except PyErr Unit) = .error (.valueError m) := by
  rcases hv1 with h | ⟨m, h⟩
  · refine ⟨"Fields are not allowed as arguments", ?_⟩
    simp [h, Bind.bind, Except.bind, noFieldsV_err_of_mem hmem]
  · exact ⟨m, by simp [h, Bind.bind, Except.bind]⟩

/-- The shared validator chain of the associative classes raises a
`ValueError` on a raw `Field` argument. -/
theorem assocV_err_of_field (k : AssocKind) {args : List Expr} {f : FieldE}
    (hmem : Expr.efld f ∈ args) :
    ∃ m, assocV k args = .error (.valueError m) := by
  cases k with
  | andK => exact chain2_err_of_field _ (booleanV_shape _) hmem
  | orK => exact chain2_err_of_field _ (booleanV_shape _) hmem
  | addK =>
      unfold assocV arithChainV
      exact chain3_err_of_field _ _ (arithmeticV_shape _) (sameSortV_shape _) hmem
  | mulK =>
      unfold assocV arithChainV
      exact chain3_err_of_field _ _ (arithmeticV_shape _) (sameSortV_shape _) hmem

/-- An associative construction with a raw `Field` anywhere among the
flattened arguments raises a `ValueError`. -/
theorem mkAssoc_err_of_field {k : AssocKind} {arg1 arg2 : Expr} {args : List Expr}
    {f : FieldE} (hmem : Expr.efld f ∈ (arg1 :: arg2 :: args).flatMap (expand k)) :
    ∃ m, mkAssoc k arg1 arg2 args = .error (.valueError m) := by
  unfold mkAssoc
  cases hfl : (arg1 :: arg2 :: args).flatMap (expand k) with
  | nil => exact ⟨_, rfl⟩
  | cons y ys =>
      rw [hfl] at hmem
      obtain ⟨m, hm⟩ := assocV_err_of_field k hmem
      exact ⟨m, by simp [hm, Bind.bind, Except.bind]⟩

/-- A direct argument is among the flattened arguments (its own
expansion is contained in the flattening). -/
theorem mem_flatMap_expand {k : AssocKind} {f : FieldE} {l : List Expr}
    (h : Expr.efld f ∈ l) : Expr.efld f ∈ l.flatMap (expand k) := by
  refine List.mem_flatMap.mpr ⟨.efld f, h, ?_⟩
  simp [expand]

/-- Intermediate characterization of a successful `Enviroment`
construction: the instance carries the construction arguments and all
five checks passed. -/
theorem mkEnviroment_ok {ns : SortT} {root : Var} {locals : List Var} {e : Enviroment}
    (h : mkEnviroment ns root locals = .ok e) :
    e = ⟨ns, root, locals⟩ ∧ root.sort = .ptrS ns ∧
    (∀ v ∈ locals, v.sort.isStruct = false) ∧
    (∀ v ∈ locals, v.sort.isPtr = true → v.sort = .ptrS ns) ∧
    (∀ v ∈ locals, root.name ≠ v.name) ∧
    (root.name :: locals.map Var.name).Nodup := by
  unfold mkEnviroment at h
  split at h
  next => simp at h
  next h1 =>
    split at h
    next => simp at h
    next h2 =>
      split at h
      next => simp at h
      next h3 =>
        split at h
        next => simp at h
        next h4 =>
          split at h
          next => simp at h
          next h5 =>
            simp only [Except.ok.injEq] at h
            subst h
            push_neg at h1
            simp only [List.any_eq_true, not_exists, not_and, decide_eq_true_eq] at h2 h4 h5
            push_neg at h3
            refine ⟨rfl, h1, ?_, ?_, ?_, h3⟩
            · intro v hv
              have := h4 v hv
              simp only [Bool.not_eq_true] at this
              cases hvs : v.sort.isStruct
              · rfl
              · exact absurd hvs (by simpa using this)
            · intro v hv hptr
              have h6 := h5 v hv
              simp [hptr] at h6
              exact h6
            · intro v hv
              exact h2 v hv

/-- A successfully constructed `Function` carries its construction
arguments unchanged (the dataclass is frozen; `__post_init__` only
validates and attaches the precomputed successor map). -/
theorem mkFunction_ok {name : String} {env : EnvArg} {rt : SortT} {instrs : List Instr}
    {f : FunctionIR} (h : mkFunction name env rt instrs = .ok f) :
    f.name = name ∧ f.env = env ∧ f.return_type = rt ∧ f.instructions = instrs := by
  unfold mkFunction at h
  cases h1 : buildLabels instrs with
  | error e => rw [h1] at h; simp [Bind.bind, Except.bind] at h
  | ok labels =>
      rw [h1] at h
      simp only [Bind.bind, Except.bind] at h
      cases h2 : buildInfo instrs labels with
      | error e => rw [h2] at h; simp [Except.bind] at h
      | ok info =>
          rw [h2] at h
          simp only [Except.bind] at h
          cases h3 : instrs.forM (validateInstruction env) with
          | error e => rw [h3] at h; simp [Except.bind] at h
          | ok u =>
              rw [h3] at h
              simp only [Except.bind] at h
              cases h4 : env.rootAttr with
              | error e => rw [h4] at h; simp [Except.bind] at h
              | ok rootV =>
                  rw [h4] at h
                  simp only [Except.bind] at h
                  split at h
                  next => simp [Bind.bind, Except.bind] at h
                  next =>
                      simp only [pure, Except.pure] at h
                      split at h
                      next => simp at h
                      next =>
                          simp only [Except.ok.injEq] at h
                          subst h
                          exact ⟨rfl, rfl, rfl, rfl⟩

/-! ## The checked claims -/

/-- C1: constructing a `Function` whose valueless `Return` disagrees
with the declared non-`Unit` return type fails — but with the generic
builtin `ValueError`, not with the distinct `IncompatibleReturnTypeError`
kind the claim (and the catching lowering layer) expects:
`Function.__post_init__` raises
`ValueError("sort_of(instr.value) is not self.return_type")`, so the
`except IncompatibleReturnTypeError` handlers in `FuncDefVisitor` and
`CASTVisitor` can never fire.  The theorem evaluates construction at the
failing input and records that the raised kind is not the
incompatible-return-type kind. -/
theorem c1_return_mismatch_raises_plain_valueerror :
    mkEnviroment simpleNode simpleRootV [] = .ok simpleEnv ∧
    mkFunction "f" (.envE simpleEnv) INT [.retI none none] =
      .error (.valueError "sort_of(instr.value) is not self.return_type") ∧
    (PyErr.valueError "sort_of(instr.value) is not self.return_type").isIncompatibleReturnType
      = false ∧
    mkFunction "g" (.envE simpleEnv) REAL [.retI (some (.intLit 3)) none] =
      .error (.valueError "sort_of(instr.value) is not self.return_type") :=
  ⟨rfl, rfl, rfl, rfl⟩

/-- C2: lowering `int sum(int a, int b) { return a + b; }` does build
exactly the claimed components — name `sum`, variables `a_0 : INT` and
`b_0 : INT`, return sort `INT`, single instruction
`Return(Add(a_0, b_0))` — but the pipeline then crashes instead of
succeeding: `visit_FuncDef` passes `self.scopes.vars`, a plain
`set[Var]`, as the `env : Enviroment` argument of `Function`, and
instruction validation evaluates `self.env.vars`, raising
`AttributeError`. -/
theorem c2_sum_lowering_components_and_crash :
    visitFuncDefParts sumAST =
      .ok ("sum", [aV, bV], INT,
        [.retI (some (.assocE .addK (.evar aV) [.evar bV])) none]) ∧
    visitFuncDef sumAST = .error (.attributeError "set object has no attribute vars") :=
  ⟨rfl, rfl⟩

/-- C3: the interning pool of `Sort.__new__` is canonical: re-interning
a structurally equal payload returns the same instance from an unchanged
pool, interning a structurally different payload returns a distinct
instance; in particular `Pointer` payloads keyed by pointee identity
yield the same instance for the same pointee and distinct instances for
distinct pointee instances. -/
theorem c3_sort_interning_canonical (r : Registry) (k1 k2 : SortKey)
    (sId1 sId2 : Nat) (h12 : k1 ≠ k2) (hs : sId1 ≠ sId2) :
    internKey (internKey r k1).2 k1 = internKey r k1 ∧
    (internKey (internKey r k1).2 k2).1 ≠ (internKey r k1).1 ∧
    internKey (internKey r (.ptrK sId1)).2 (.ptrK sId1) = internKey r (.ptrK sId1) ∧
    (internKey (internKey r (.ptrK sId1)).2 (.ptrK sId2)).1 ≠ (internKey r (.ptrK sId1)).1 :=
  ⟨internKey_idem r k1, internKey_distinct r h12, internKey_idem r _,
   internKey_distinct r (by simp [hs])⟩

/-- C3 witness: two struct payloads with identical field layout but
different names are structurally different, hence interned to distinct
instances; `Pointer` on the canonical `A` instance is idempotent and
differs from `Pointer` on the canonical `B` instance. -/
theorem c3_sort_interning_canonical_witness :
    internKey (internKey Registry.empty (.structK "A" ["next"] [])).2 (.structK "A" ["next"] [])
      = internKey Registry.empty (.structK "A" ["next"] []) ∧
    (internKey (internKey Registry.empty (.structK "A" ["next"] [])).2
        (.structK "B" ["next"] [])).1
      ≠ (internKey Registry.empty (.structK "A" ["next"] [])).1 ∧
    internKey (internKey Registry.empty (.ptrK 0)).2 (.ptrK 0)
      = internKey Registry.empty (.ptrK 0) ∧
    (internKey (internKey Registry.empty (.ptrK 0)).2 (.ptrK 1)).1
      ≠ (internKey Registry.empty (.ptrK 0)).1 :=
  c3_sort_interning_canonical Registry.empty (.structK "A" ["next"] [])
    (.structK "B" ["next"] []) 0 1 (by decide) (by decide)

/-- C4: for any associative kind, nesting two successful same-kind
applications flattens to one n-ary node with the operands in
left-to-right encounter order — the nested construction is
indistinguishable from the four-argument construction, and a successful
result is the flat node `(a, b, c, d)`; an application of a different
kind stays a single operand. -/
theorem c4_assoc_flattening (k k2 : AssocKind) (a b c d z w ab cd zw : Expr)
    (ha : expand k a = [a]) (hb : expand k b = [b])
    (hc : expand k c = [c]) (hd : expand k d = [d])
    (hz : expand k2 z = [z]) (hw : expand k2 w = [w]) (hkk : k ≠ k2)
    (hab : mkAssoc k a b [] = .ok ab) (hcd : mkAssoc k c d [] = .ok cd)
    (hzw : mkAssoc k2 z w [] = .ok zw) :
    mkAssoc k ab cd [] = mkAssoc k a b [c, d] ∧
    (∀ r, mkAssoc k ab cd [] = .ok r → r = .assocE k a [b, c, d]) ∧
    mkAssoc k ab zw [] = mkAssoc k a b [zw] ∧
    (∀ r, mkAssoc k ab zw [] = .ok r → r = .assocE k a [b, zw]) := by
  obtain ⟨hab1, -⟩ := mkAssoc_pair ha hb hab
  obtain ⟨hcd1, -⟩ := mkAssoc_pair hc hd hcd
  obtain ⟨hzw1, -⟩ := mkAssoc_pair hz hw hzw
  subst hab1
  subst hcd1
  subst hzw1
  have hexpnot : expand k (.assocE k2 z [w]) = [.assocE k2 z [w]] := by
    simp [expand, Ne.symm hkk]
  have l1 : (Expr.assocE k a [b] :: Expr.assocE k c [d] :: ([] : List Expr)).flatMap (expand k)
      = [a, b, c, d] := by
    simp [List.flatMap, expand]
  have l2 : (a :: b :: [c, d]).flatMap (expand k) = [a, b, c, d] := by
    simp [List.flatMap, ha, hb, hc, hd]
  have hexpself : expand k (.assocE k a [b]) = a :: [b] := by simp [expand]
  have l3 : (Expr.assocE k a [b] :: Expr.assocE k2 z [w] :: ([] : List Expr)).flatMap (expand k)
      = [a, b, .assocE k2 z [w]] := by
    simp [List.flatMap, hexpself, hexpnot]
  have l4 : (a :: b :: [Expr.assocE k2 z [w]]).flatMap (expand k)
      = [a, b, .assocE k2 z [w]] := by
    simp [List.flatMap, ha, hb, hexpnot]
  have e1 : mkAssoc k (.assocE k a [b]) (.assocE k c [d]) [] =
      (do assocV k [a, b, c, d]; pure (.assocE k a [b, c, d]) : Except PyErr Expr) := by
    unfold mkAssoc
    rw [l1]
  have e2 : mkAssoc k a b [c, d] =
      (do assocV k [a, b, c, d]; pure (.assocE k a [b, c, d]) : Except PyErr Expr) := by
    unfold mkAssoc
    rw [l2]
  have e3 : mkAssoc k (.assocE k a [b]) (.assocE k2 z [w]) [] =
      (do assocV k [a, b, .assocE k2 z [w]];
          pure (.assocE k a [b, .assocE k2 z [w]]) : Except PyErr Expr) := by
    unfold mkAssoc
    rw [l3]
  have e4 : mkAssoc k a b [.assocE k2 z [w]] =
      (do assocV k [a, b, .assocE k2 z [w]];
          pure (.assocE k a [b, .assocE k2 z [w]]) : Except PyErr Expr) := by
    unfold mkAssoc
    rw [l4]
  refine ⟨e1.trans e2.symm, ?_, e3.trans e4.symm, ?_⟩
  · intro r hr
    rw [e1] at hr
    cases hv : assocV k [a, b, c, d] with
    | error e => rw [hv] at hr; simp [Bind.bind, Except.bind] at hr
    | ok u =>
        rw [hv] at hr
        simp [Bind.bind, Except.bind, pure, Except.pure] at hr
        exact hr.symm
  · intro r hr
    rw [e3] at hr
    cases hv : assocV k [a, b, .assocE k2 z [w]] with
    | error e => rw [hv] at hr; simp [Bind.bind, Except.bind] at hr
    | ok u =>
        rw [hv] at hr
        simp [Bind.bind, Except.bind, pure, Except.pure] at hr
        exact hr.symm

/-- C4 witness at boolean variables: `And(And(b1,b2), And(b3,b4))`
equals `And(b1,b2,b3,b4)` and `And(And(b1,b2), Or(b5,b6))` keeps the
`Or` node as one operand. -/
theorem c4_assoc_flattening_witness :
    mkAssoc .andK (.assocE .andK (.evar b1V) [.evar b2V]) (.assocE .andK (.evar b3V) [.evar b4V]) []
      = mkAssoc .andK (.evar b1V) (.evar b2V) [.evar b3V, .evar b4V] ∧
    (∀ r, mkAssoc .andK (.assocE .andK (.evar b1V) [.evar b2V])
        (.assocE .andK (.evar b3V) [.evar b4V]) [] = .ok r →
        r = .assocE .andK (.evar b1V) [.evar b2V, .evar b3V, .evar b4V]) ∧
    mkAssoc .andK (.assocE .andK (.evar b1V) [.evar b2V]) (.assocE .orK (.evar b5V) [.evar b6V]) []
      = mkAssoc .andK (.evar b1V) (.evar b2V) [.assocE .orK (.evar b5V) [.evar b6V]] ∧
    (∀ r, mkAssoc .andK (.assocE .andK (.evar b1V) [.evar b2V])
        (.assocE .orK (.evar b5V) [.evar b6V]) [] = .ok r →
        r = .assocE .andK (.evar b1V) [.evar b2V, .assocE .orK (.evar b5V) [.evar b6V]]) :=
  c4_assoc_flattening .andK .orK (.evar b1V) (.evar b2V) (.evar b3V) (.evar b4V)
    (.evar b5V) (.evar b6V) _ _ _
    rfl rfl rfl rfl rfl rfl (by decide) rfl rfl rfl

/-- C5: for the nine-instruction `bsearch` example, the successor map
built by `_build_info` does satisfy `info_at(1) = (pc 1, next (3, 2))`
(true branch resolved through the label `loop`, false branch the
fall-through `2`) and `info_at(8) = (pc 8, next 9)` (one past the end) —
but constructing the `Function` itself fails beforehand: validating the
first instruction evaluates `sort_op.sort` on a pointer sort, whose
class defines `pointee` and no attribute `sort`, raising
`AttributeError`, so no `Function` instance exists on which `info_at`
could be called (the repository test asserts success and exactly these
values). -/
theorem c5_bsearch_cfg_info_and_construction_failure :
    mkEnviroment nodeStruct rootNodeV [keyV, valueV, currV] = .ok bsearchEnv ∧
    mkFunction "bsearch" (.envE bsearchEnv) UNIT bsearchInstrs =
      .error (.attributeError "Pointer object has no attribute sort") ∧
    (∃ info, functionInfo bsearchInstrs = .ok info ∧
       info.get? 1 = some ⟨1, .branch 3 2⟩ ∧
       info.get? 8 = some ⟨8, .straight 9⟩) :=
  ⟨rfl, rfl, ⟨_, rfl, rfl, rfl⟩⟩

/-- C6 counterexample: `Eq(p.i, i)` and `Add(p.i, i)` with a valid
data-sorted field `p.i` do not construct successfully — both raise the
`_no_fields` `ValueError` (the validator is attached to `Eq` and `Add`
as well, and the repository expression tests assert exactly these
rejections). -/
theorem c6_counterexample_eq_add_field_rejected :
    mkEq (.efld fiF) (.evar iIntV) =
      .error (.valueError "Fields are not allowed as arguments") ∧
    mkAdd (.efld fiF) (.evar iIntV) [] =
      .error (.valueError "Fields are not allowed as arguments") :=
  ⟨rfl, rfl⟩

/-- C6 amended: raw `Field` expressions are rejected as direct arguments
of every validated operator constructor — the boolean connectives `And`,
`Or`, `Not` as the claim says, but equally `Eq` and `Add` (and the other
comparison and arithmetic constructors, which carry the same
`_no_fields` validator); in every case the raised error is a
`ValueError`. -/
theorem c6_fields_rejected_by_all_operators (f : FieldE) (x : Expr) :
    (∃ m, mkEq (.efld f) x = .error (.valueError m)) ∧
    (∃ m, mkEq x (.efld f) = .error (.valueError m)) ∧
    (∃ m, mkAdd (.efld f) x [] = .error (.valueError m)) ∧
    (∃ m, mkAdd x (.efld f) [] = .error (.valueError m)) ∧
    (∃ m, mkAnd x (.efld f) [] = .error (.valueError m)) ∧
    (∃ m, mkOr x (.efld f) [] = .error (.valueError m)) ∧
    (∃ m, mkNot (.efld f) = .error (.valueError m)) := by
  refine ⟨?_, ?_, ?_, ?_, ?_, ?_, ?_⟩
  · unfold mkEq
    exact chain_err_of_field (f := f) _ (noPointersV_shape _) (by simp) _
  · unfold mkEq
    exact chain_err_of_field (f := f) _ (noPointersV_shape _) (by simp) _
  · unfold mkAdd
    exact mkAssoc_err_of_field (f := f) (mem_flatMap_expand (by simp))
  · unfold mkAdd
    exact mkAssoc_err_of_field (f := f) (mem_flatMap_expand (by simp))
  · unfold mkAnd
    exact mkAssoc_err_of_field (f := f) (mem_flatMap_expand (by simp))
  · unfold mkOr
    exact mkAssoc_err_of_field (f := f) (mem_flatMap_expand (by simp))
  · unfold mkNot
    exact chain_err_of_field (f := f) _ (booleanV_shape _) (by simp) _

/-- C7: on every reachable scope-stack state — and state transition —
the mangled names `name_<n>` use a per-base counter that only grows
(also across `pop_scope`), so all recorded mangled names are pairwise
distinct; re-declaring a name bound in the innermost frame raises
`KeyError`; a successful declaration binds the name, in the innermost
frame, to the Var mangled with the pre-bump counter; and a shadowing
declaration in a pushed scope resolves to a different Var (with a
different mangled name) than the outer one. -/
theorem c7_scopestack_spec (ops : List ScopeOp) (s : ScopeState)
    (h : runOps initScope ops = .ok s) :
    (s.vars.map Var.name).Nodup ∧
    (∀ name sort frame rest, s.stack = frame :: rest → (frame.lookup name).isSome →
       s.declareVariable name sort =
         .error (.keyError "Variable already declared in the current scope.")) ∧
    (∀ op s2, runOp s op = .ok s2 → ∀ b, s.countOf b ≤ s2.countOf b) ∧
    (∀ name sort s2, s.declareVariable name sort = .ok s2 →
       s2.getVariable name = .ok ⟨mangle name (s.countOf name), sort⟩ ∧
       s2.countOf name = s.countOf name + 1 ∧
       s2.vars = s.vars ++ [⟨mangle name (s.countOf name), sort⟩]) ∧
    (∀ name frame rest v, s.stack = frame :: rest → frame.lookup name = some v →
       s.getVariable name = .ok v) ∧
    (∀ name σ1 σ2 s1 s3, s.declareVariable name σ1 = .ok s1 →
       (s1.pushScope).declareVariable name σ2 = .ok s3 →
       ∃ v1 v2, s1.getVariable name = .ok v1 ∧ s3.getVariable name = .ok v2 ∧
         v1.name ≠ v2.name ∧ v1 ≠ v2) := by
  refine ⟨(runOps_inv ops initScope s h initScope_inv).2, ?_, ?_, ?_, ?_, ?_⟩
  · intro name sort frame rest hstk hsome
    unfold ScopeState.declareVariable
    rw [hstk]
    simp [hsome]
  · intro op s2 hop b
    cases op with
    | push =>
        simp [runOp, ScopeState.pushScope] at hop
        subst hop
        exact le_refl _
    | pop =>
        simp [runOp, ScopeState.popScope] at hop
        cases hstk : s.stack with
        | nil => rw [hstk] at hop; simp at hop
        | cons fr rest =>
            rw [hstk] at hop
            simp at hop
            subst hop
            exact le_refl _
    | declare name sort =>
        simp only [runOp] at hop
        obtain ⟨frame, rest, hstk, hlook, hunit, hs2⟩ := declareVariable_ok hop
        subst hs2
        rw [countOf_after]
        split
        · next he => subst he; omega
        · exact le_refl _
  · intro name sort s2 hdecl
    exact getVariable_after_declare hdecl
  · intro name frame rest v hstk hlook
    unfold ScopeState.getVariable
    rw [hstk]
    simp [List.findSome?, hlook]
  · intro name σ1 σ2 s1 s3 h1 h3
    obtain ⟨g1, c1, -⟩ := getVariable_after_declare h1
    obtain ⟨g3, -, -⟩ := getVariable_after_declare h3
    have hpc : (s1.pushScope).countOf name = s.countOf name + 1 := by
      rw [pushScope_counters]
      exact c1
    rw [hpc] at g3
    refine ⟨⟨mangle name (s.countOf name), σ1⟩, ⟨mangle name (s.countOf name + 1), σ2⟩,
      g1, g3, ?_, ?_⟩
    · intro heq
      obtain ⟨-, hn⟩ := mangle_inj heq
      omega
    · intro heq
      have hnm := congrArg Var.name heq
      simp at hnm
      obtain ⟨-, hn⟩ := mangle_inj hnm
      omega

/-- C7 witness: the trace declare `x`, shadow `x` in a nested scope, pop,
declare `y` reaches the expected state, whose recorded mangled names
`x_0, x_1, y_0` are pairwise distinct. -/
theorem c7_scopestack_spec_witness :
    runOps initScope witnessOps = .ok witnessState ∧
    (witnessState.vars.map Var.name).Nodup ∧
    witnessState.vars = [⟨"x_0", INT⟩, ⟨"x_1", INT⟩, ⟨"y_0", INT⟩] :=
  ⟨rfl, (c7_scopestack_spec witnessOps witnessState rfl).1, rfl⟩

/-- C8: lowering `void f() { int n; n = 10; while (n > 0) { n = n - 1; } }`
produces exactly the claimed four-instruction sequence —
`VarAssignExpr(n_0, 10)`, `Goto(#WHILE_COND_0)`,
`VarAssignExpr(n_0, Sub(n_0, 1))` labelled `#WHILE_BODY_0`,
`IfGoto(Gt(n_0, 0), #WHILE_BODY_0)` labelled `#WHILE_COND_0` — with two
distinct synthesized labels; the subsequent `Function` assembly of the
pipeline then crashes with `AttributeError` (the `set`-as-`Enviroment`
slip recorded at C2), so the sequence never reaches a constructed
`Function`. -/
theorem c8_while_lowering_sequence_and_crash :
    visitFuncDefParts whileAST =
      .ok ("f", [nV], UNIT,
        [.varAssignExpr nV (.intLit 10) none,
         .gotoI "#WHILE_COND_0" none,
         .varAssignExpr nV (.subE (.evar nV) (.intLit 1)) (some "#WHILE_BODY_0"),
         .ifGoto (.gtE (.evar nV) (.intLit 0)) "#WHILE_BODY_0" (some "#WHILE_COND_0")]) ∧
    ("#WHILE_COND_0" == "#WHILE_BODY_0") = false ∧
    visitFuncDef whileAST = .error (.attributeError "set object has no attribute vars") :=
  ⟨rfl, by decide, rfl⟩

/-- C9: a successfully constructed `Enviroment` satisfies the
single-node-sort invariant — the root sort is exactly
`Pointer(node_sort)`, no local has a struct sort, every pointer-sorted
local points to `node_sort`, and the root name differs from every local
name; any argument tuple violating one of these conditions is rejected
at construction; and `Function` construction passes the environment
through unchanged. -/
theorem c9_enviroment_invariant (ns : SortT) (root : Var) (locals : List Var) :
    (∀ e, mkEnviroment ns root locals = .ok e →
       e.root.sort = .ptrS e.node_sort ∧
       (∀ v ∈ e.local_vars, v.sort.isStruct = false) ∧
       (∀ v ∈ e.local_vars, v.sort.isPtr = true → v.sort = .ptrS e.node_sort) ∧
       (∀ v ∈ e.local_vars, e.root.name ≠ v.name)) ∧
    ((root.sort ≠ .ptrS ns ∨
      (∃ v ∈ locals, v.sort.isStruct = true) ∨
      (∃ v ∈ locals, v.sort.isPtr = true ∧ v.sort ≠ .ptrS ns) ∨
      (∃ v ∈ locals, root.name = v.name)) →
     ∃ m, mkEnviroment ns root locals = .error m) ∧
    (∀ e fname rt instrs fn, mkEnviroment ns root locals = .ok e →
       mkFunction fname (.envE e) rt instrs = .ok fn → fn.env = .envE e) := by
  refine ⟨?_, ?_, ?_⟩
  · intro e he
    obtain ⟨heq, hroot, hstruct, hptr, hname, -⟩ := mkEnviroment_ok he
    subst heq
    exact ⟨hroot, hstruct, hptr, hname⟩
  · intro hvio
    cases hres : mkEnviroment ns root locals with
    | error m => exact ⟨m, rfl⟩
    | ok e =>
        obtain ⟨heq, hroot, hstruct, hptr, hname, -⟩ := mkEnviroment_ok hres
        exfalso
        rcases hvio with hv | hv | hv | hv
        · exact hv hroot
        · obtain ⟨v, hvmem, hs⟩ := hv
          have h7 := hstruct v hvmem
          rw [hs] at h7
          exact absurd h7 (by decide)
        · obtain ⟨v, hvmem, hp, hne⟩ := hv
          exact hne (hptr v hvmem hp)
        · obtain ⟨v, hvmem, he2⟩ := hv
          exact hname v hvmem he2
  · intro e fname rt instrs fn he hf
    exact (mkFunction_ok hf).2.1

/-- C9 witness: the `bsearch` environment satisfies the invariant, and
an environment whose root is not pointer-sorted is rejected. -/
theorem c9_enviroment_invariant_witness :
    mkEnviroment nodeStruct rootNodeV [keyV, valueV, currV] = .ok bsearchEnv ∧
    bsearchEnv.root.sort = .ptrS bsearchEnv.node_sort ∧
    (∃ m, mkEnviroment nodeStruct ⟨"root", INT⟩ [] = .error m) :=
  ⟨rfl,
   ((c9_enviroment_invariant nodeStruct rootNodeV [keyV, valueV, currV]).1 bsearchEnv rfl).1,
   (c9_enviroment_invariant nodeStruct ⟨"root", INT⟩ []).2.1 (Or.inl (by decide))⟩

/-- C10: the pointer-test constructors accept only variables: a
non-`Var` argument makes `PtrIsNil` raise its `isinstance` `ValueError`,
and `PtrIsPtr` raises on a non-`Var` left side and, for a `Var` left
side, on a non-`Var` right side — in each case before any sort is
examined, so pointer-sorted `Field` arguments are rejected too. -/
theorem c10_ptr_tests_require_var_arguments (a l r : Expr) :
    (a.isVarE = false →
       mkPtrIsNil a = .error (.valueError "not isinstance(self.argument, Var)")) ∧
    (l.isVarE = false →
       mkPtrIsPtr l r = .error (.valueError "not isinstance(self.left, Var)")) ∧
    (l.isVarE = true → r.isVarE = false →
       mkPtrIsPtr l r = .error (.valueError "not isinstance(self.right, Var)")) := by
  refine ⟨?_, ?_, ?_⟩
  · intro h
    simp [mkPtrIsNil, h, Bind.bind, Except.bind]
  · intro h
    simp [mkPtrIsPtr, h, Bind.bind, Except.bind]
  · intro hl hr
    simp [mkPtrIsPtr, hl, hr, Bind.bind, Except.bind, pure, Except.pure]

/-- C10 witness: the pointer field `p.c` is pointer-sorted yet not a
`Var`, and both constructors reject it. -/
theorem c10_ptr_tests_require_var_arguments_witness :
    (Expr.efld fcF).isVarE = false ∧
    (sortOf (.efld fcF)).isPtr = true ∧
    mkPtrIsNil (.efld fcF) = .error (.valueError "not isinstance(self.argument, Var)") ∧
    mkPtrIsPtr (.evar pBirfcV) (.efld fcF) =
      .error (.valueError "not isinstance(self.right, Var)") :=
  ⟨rfl, rfl,
   (c10_ptr_tests_require_var_arguments (.efld fcF) (.evar pBirfcV) (.efld fcF)).1 rfl,
   (c10_ptr_tests_require_var_arguments (.efld fcF) (.evar pBirfcV) (.efld fcF)).2.2 rfl rfl⟩

end TreehornX
